import Mathlib

namespace Valibot

/-- Runtime values handled by the validation engine, modelling the JavaScript
values the schemas of this library inspect: strings, numbers, booleans,
null, undefined, plain objects (ordered field lists) and arrays. -/
inductive Value where
  | str (s : String)
  | num (n : Int)
  | bool (b : Bool)
  | null
  | undef
  | obj (fields : List (String × Value))
  | arr (elems : List Value)
deriving Repr

/-- One step of an Issue path: an object key or an array index. -/
inductive PathSegment where
  | key (k : String)
  | index (i : Nat)
deriving Repr, DecidableEq

/-- Modelled from the spec: the Issue record of the missing core
(src only ships the toLowerCase transformation), one validation failure with
message, path, offending input and expected/received descriptions. -/
structure Issue where
  message : String
  path : List PathSegment
  input : Value
  expected : String
  received : String
deriving Repr

/-- Modelled from the spec: the tagged Result union of the missing core,
either a success carrying the output value or a failure carrying the
ordered issue list. -/
inductive Result where
  | success (output : Value)
  | failure (issues : List Issue)
deriving Repr

/-- Modelled from the spec: a pipeline action is either a validation
(predicate plus overridable message, value unchanged) or a transformation
(pure function from value to value). -/
inductive PipelineAction where
  | validation (predicate : Value → Bool) (message : String)
  | transformation (fn : Value → Value)

/-- The runtime kind name of a value, used for the received field. -/
def typeName : Value → String
  | .str _ => "string"
  | .num _ => "number"
  | .bool _ => "boolean"
  | .null => "null"
  | .undef => "undefined"
  | .obj _ => "object"
  | .arr _ => "array"

/-- Default structural-mismatch text built from expected and received. -/
def defaultMessage (expected received : String) : String :=
  "expected " ++ expected ++ ", received " ++ received

/-- Modelled from the spec: the Issue for a structural mismatch of a schema
of the given kind; a custom construction-time message overrides only the
default text, path is empty (root). -/
def mismatchIssue (kind : String) (message : Option String) (v : Value) : Issue :=
  ⟨message.getD (defaultMessage kind (typeName v)), [], v, kind, typeName v⟩

/-- Modelled from the spec: the Issue for a failing pipeline validation
action, carrying the action message and an empty path. -/
def actionIssue (message : String) (v : Value) : Issue :=
  ⟨message, [], v, "valid input", typeName v⟩

/-- Modelled from the spec: the single synthetic Issue describing a union
mismatch when no alternative matched. -/
def unionIssue (v : Value) : Issue :=
  ⟨defaultMessage "union" (typeName v), [], v, "union", typeName v⟩

/-- Modelled from the spec: the Pipeline Engine; executes the actions left
to right over an already structurally-valid value, stopping at the first
validation action whose predicate rejects and replacing the running value
at each transformation. -/
def runPipeline : List PipelineAction → Value → Result
  | [], v => .success v
  | .validation p msg :: rest, v =>
      if p v then runPipeline rest v else .failure [actionIssue msg v]
  | .transformation f :: rest, v => runPipeline rest (f v)

/-- Binary search tree from code points to replacement code point
sequences; holds the Unicode lowercase mapping table in a shape the kernel
can search in logarithmic time. -/
inductive CMap where
  | leaf
  | node (l : CMap) (k : Nat) (v : List Nat) (r : CMap)

/-- Looks a code point up in the mapping tree. -/
def CMap.find : CMap → Nat → Option (List Nat)
  | .leaf, _ => none
  | .node l k v r, n =>
      if n < k then l.find n else if k < n then r.find n else some v

/-- Checks a predicate on every entry of the mapping tree. -/
def CMap.forAll : CMap → (Nat → List Nat → Bool) → Bool
  | .leaf, _ => true
  | .node l k v r, f => f k v && l.forAll f && r.forAll f

/-- Binary search tree of disjoint, sorted code point ranges; holds the
Unicode binary property sets used by the Final_Sigma context rule. -/
inductive RSet where
  | leaf
  | node (l : RSet) (lo hi : Nat) (r : RSet)

/-- Tests membership of a code point in the range set. -/
def RSet.mem : RSet → Nat → Bool
  | .leaf, _ => false
  | .node l lo hi r, n =>
      if n < lo then l.mem n else if hi < n then r.mem n else true

/-- Generated from Unicode 14.0.0 data: every code point whose default full
lowercase mapping differs from itself, with its replacement sequence (the
simple mappings of UnicodeData field 13 together with the unconditional
SpecialCasing entries; in particular U+0130 maps to the two code points
U+0069 U+0307). Capital sigma U+03A3 carries its non-final mapping U+03C3
here; the Final_Sigma context rule is applied separately in lowerAt. -/
def lowerTree : CMap :=
  (.node
    (.node
      (.node
        (.node
          (.node
            (.node
              (.node
                (.node
                  (.node
                    (.node
                      .leaf
                      65 [97]
                      .leaf
                    )
                    66 [98]
                    (.node
                      .leaf
                      67 [99]
                      (.node
                        .leaf
                        68 [100]
                        .leaf
                      )
                    )
                  )
                  69 [101]
                  (.node
                    (.node
                      .leaf
                      70 [102]
                      (.node
                        .leaf
                        71 [103]
                        .leaf
                      )
                    )
                    72 [104]
                    (.node
                      .leaf
                      73 [105]
                      (.node
                        .leaf
                        74 [106]
                        .leaf
                      )
                    )
                  )
                )
                75 [107]
                (.node
                  (.node
                    (.node
                      .leaf
                      76 [108]
                      .leaf
                    )
                    77 [109]
                    (.node
                      .leaf
                      78 [110]
                      (.node
                        .leaf
                        79 [111]
                        .leaf
                      )
                    )
                  )
                  80 [112]
                  (.node
                    (.node
                      .leaf
                      81 [113]
                      (.node
                        .leaf
                        82 [114]
                        .leaf
                      )
                    )
                    83 [115]
                    (.node
                      .leaf
                      84 [116]
                      (.node
                        .leaf
                        85 [117]
                        .leaf
                      )
                    )
                  )
                )
              )
              86 [118]
              (.node
                (.node
                  (.node
                    (.node
                      .leaf
                      87 [119]
                      .leaf
                    )
                    88 [120]
                    (.node
                      .leaf
                      89 [121]
                      (.node
                        .leaf
                        90 [122]
                        .leaf
                      )
                    )
                  )
                  192 [224]
                  (.node
                    (.node
                      .leaf
                      193 [225]
                      (.node
                        .leaf
                        194 [226]
                        .leaf
                      )
                    )
                    195 [227]
                    (.node
                      .leaf
                      196 [228]
                      (.node
                        .leaf
                        197 [229]
                        .leaf
                      )
                    )
                  )
                )
                198 [230]
                (.node
                  (.node
                    (.node
                      .leaf
                      199 [231]
                      .leaf
                    )
                    200 [232]
                    (.node
                      .leaf
                      201 [233]
                      (.node
                        .leaf
                        202 [234]
                        .leaf
                      )
                    )
                  )
                  203 [235]
                  (.node
                    (.node
                      .leaf
                      204 [236]
                      (.node
                        .leaf
                        205 [237]
                        .leaf
                      )
                    )
                    206 [238]
                    (.node
                      .leaf
                      207 [239]
                      (.node
                        .leaf
                        208 [240]
                        .leaf
                      )
                    )
                  )
                )
              )
            )
            209 [241]
            (.node
              (.node
                (.node
                  (.node
                    (.node
                      .leaf
                      210 [242]
                      .leaf
                    )
                    211 [243]
                    (.node
                      .leaf
                      212 [244]
                      (.node
                        .leaf
                        213 [245]
                        .leaf
                      )
                    )
                  )
                  214 [246]
                  (.node
                    (.node
                      .leaf
                      216 [248]
                      (.node
                        .leaf
                        217 [249]
                        .leaf
                      )
                    )
                    218 [250]
                    (.node
                      .leaf
                      219 [251]
                      (.node
                        .leaf
                        220 [252]
                        .leaf
                      )
                    )
                  )
                )
                221 [253]
                (.node
                  (.node
                    (.node
                      .leaf
                      222 [254]
                      .leaf
                    )
                    256 [257]
                    (.node
                      .leaf
                      258 [259]
                      (.node
                        .leaf
                        260 [261]
                        .leaf
                      )
                    )
                  )
                  262 [263]
                  (.node
                    (.node
                      .leaf
                      264 [265]
                      (.node
                        .leaf
                        266 [267]
                        .leaf
                      )
                    )
                    268 [269]
                    (.node
                      .leaf
                      270 [271]
                      (.node
                        .leaf
                        272 [273]
                        .leaf
                      )
                    )
                  )
                )
              )
              274 [275]
              (.node
                (.node
                  (.node
                    (.node
                      .leaf
                      276 [277]
                      .leaf
                    )
                    278 [279]
                    (.node
                      .leaf
                      280 [281]
                      (.node
                        .leaf
                        282 [283]
                        .leaf
                      )
                    )
                  )
                  284 [285]
                  (.node
                    (.node
                      .leaf
                      286 [287]
                      (.node
                        .leaf
                        288 [289]
                        .leaf
                      )
                    )
                    290 [291]
                    (.node
                      .leaf
                      292 [293]
                      (.node
                        .leaf
                        294 [295]
                        .leaf
                      )
                    )
                  )
                )
                296 [297]
                (.node
                  (.node
                    (.node
                      .leaf
                      298 [299]
                      (.node
                        .leaf
                        300 [301]
                        .leaf
                      )
                    )
                    302 [303]
                    (.node
                      .leaf
                      304 [105, 775]
                      (.node
                        .leaf
                        306 [307]
                        .leaf
                      )
                    )
                  )
                  308 [309]
                  (.node
                    (.node
                      .leaf
                      310 [311]
                      (.node
                        .leaf
                        313 [314]
                        .leaf
                      )
                    )
                    315 [316]
                    (.node
                      .leaf
                      317 [318]
                      (.node
                        .leaf
                        319 [320]
                        .leaf
                      )
                    )
                  )
                )
              )
            )
          )
          321 [322]
          (.node
            (.node
              (.node
                (.node
                  (.node
                    (.node
                      .leaf
                      323 [324]
                      .leaf
                    )
                    325 [326]
                    (.node
                      .leaf
                      327 [328]
                      (.node
                        .leaf
                        330 [331]
                        .leaf
                      )
                    )
                  )
                  332 [333]
                  (.node
                    (.node
                      .leaf
                      334 [335]
                      (.node
                        .leaf
                        336 [337]
                        .leaf
                      )
                    )
                    338 [339]
                    (.node
                      .leaf
                      340 [341]
                      (.node
                        .leaf
                        342 [343]
                        .leaf
                      )
                    )
                  )
                )
                344 [345]
                (.node
                  (.node
                    (.node
                      .leaf
                      346 [347]
                      .leaf
                    )
                    348 [349]
                    (.node
                      .leaf
                      350 [351]
                      (.node
                        .leaf
                        352 [353]
                        .leaf
                      )
                    )
                  )
                  354 [355]
                  (.node
                    (.node
                      .leaf
                      356 [357]
                      (.node
                        .leaf
                        358 [359]
                        .leaf
                      )
                    )
                    360 [361]
                    (.node
                      .leaf
                      362 [363]
                      (.node
                        .leaf
                        364 [365]
                        .leaf
                      )
                    )
                  )
                )
              )
              366 [367]
              (.node
                (.node
                  (.node
                    (.node
                      .leaf
                      368 [369]
                      .leaf
                    )
                    370 [371]
                    (.node
                      .leaf
                      372 [373]
                      (.node
                        .leaf
                        374 [375]
                        .leaf
                      )
                    )
                  )
                  376 [255]
                  (.node
                    (.node
                      .leaf
                      377 [378]
                      (.node
                        .leaf
                        379 [380]
                        .leaf
                      )
                    )
                    381 [382]
                    (.node
                      .leaf
                      385 [595]
                      (.node
                        .leaf
                        386 [387]
                        .leaf
                      )
                    )
                  )
                )
                388 [389]
                (.node
                  (.node
                    (.node
                      .leaf
                      390 [596]
                      (.node
                        .leaf
                        391 [392]
                        .leaf
                      )
                    )
                    393 [598]
                    (.node
                      .leaf
                      394 [599]
                      (.node
                        .leaf
                        395 [396]
                        .leaf
                      )
                    )
                  )
                  398 [477]
                  (.node
                    (.node
                      .leaf
                      399 [601]
                      (.node
                        .leaf
                        400 [603]
                        .leaf
                      )
                    )
                    401 [402]
                    (.node
                      .leaf
                      403 [608]
                      (.node
                        .leaf
                        404 [611]
                        .leaf
                      )
                    )
                  )
                )
              )
            )
            406 [617]
            (.node
              (.node
                (.node
                  (.node
                    (.node
                      .leaf
                      407 [616]
                      .leaf
                    )
                    408 [409]
                    (.node
                      .leaf
                      412 [623]
                      (.node
                        .leaf
                        413 [626]
                        .leaf
                      )
                    )
                  )
                  415 [629]
                  (.node
                    (.node
                      .leaf
                      416 [417]
                      (.node
                        .leaf
                        418 [419]
                        .leaf
                      )
                    )
                    420 [421]
                    (.node
                      .leaf
                      422 [640]
                      (.node
                        .leaf
                        423 [424]
                        .leaf
                      )
                    )
                  )
                )
                425 [643]
                (.node
                  (.node
                    (.node
                      .leaf
                      428 [429]
                      .leaf
                    )
                    430 [648]
                    (.node
                      .leaf
                      431 [432]
                      (.node
                        .leaf
                        433 [650]
                        .leaf
                      )
                    )
                  )
                  434 [651]
                  (.node
                    (.node
                      .leaf
                      435 [436]
                      (.node
                        .leaf
                        437 [438]
                        .leaf
                      )
                    )
                    439 [658]
                    (.node
                      .leaf
                      440 [441]
                      (.node
                        .leaf
                        444 [445]
                        .leaf
                      )
                    )
                  )
                )
              )
              452 [454]
              (.node
                (.node
                  (.node
                    (.node
                      .leaf
                      453 [454]
                      .leaf
                    )
                    455 [457]
                    (.node
                      .leaf
                      456 [457]
                      (.node
                        .leaf
                        458 [460]
                        .leaf
                      )
                    )
                  )
                  459 [460]
                  (.node
                    (.node
                      .leaf
                      461 [462]
                      (.node
                        .leaf
                        463 [464]
                        .leaf
                      )
                    )
                    465 [466]
                    (.node
                      .leaf
                      467 [468]
                      (.node
                        .leaf
                        469 [470]
                        .leaf
                      )
                    )
                  )
                )
                471 [472]
                (.node
                  (.node
                    (.node
                      .leaf
                      473 [474]
                      (.node
                        .leaf
                        475 [476]
                        .leaf
                      )
                    )
                    478 [479]
                    (.node
                      .leaf
                      480 [481]
                      (.node
                        .leaf
                        482 [483]
                        .leaf
                      )
                    )
                  )
                  484 [485]
                  (.node
                    (.node
                      .leaf
                      486 [487]
                      (.node
                        .leaf
                        488 [489]
                        .leaf
                      )
                    )
                    490 [491]
                    (.node
                      .leaf
                      492 [493]
                      (.node
                        .leaf
                        494 [495]
                        .leaf
                      )
                    )
                  )
                )
              )
            )
          )
        )
        497 [499]
        (.node
          (.node
            (.node
              (.node
                (.node
                  (.node
                    (.node
                      .leaf
                      498 [499]
                      .leaf
                    )
                    500 [501]
                    (.node
                      .leaf
                      502 [405]
                      (.node
                        .leaf
                        503 [447]
                        .leaf
                      )
                    )
                  )
                  504 [505]
                  (.node
                    (.node
                      .leaf
                      506 [507]
                      (.node
                        .leaf
                        508 [509]
                        .leaf
                      )
                    )
                    510 [511]
                    (.node
                      .leaf
                      512 [513]
                      (.node
                        .leaf
                        514 [515]
                        .leaf
                      )
                    )
                  )
                )
                516 [517]
                (.node
                  (.node
                    (.node
                      .leaf
                      518 [519]
                      .leaf
                    )
                    520 [521]
                    (.node
                      .leaf
                      522 [523]
                      (.node
                        .leaf
                        524 [525]
                        .leaf
                      )
                    )
                  )
                  526 [527]
                  (.node
                    (.node
                      .leaf
                      528 [529]
                      (.node
                        .leaf
                        530 [531]
                        .leaf
                      )
                    )
                    532 [533]
                    (.node
                      .leaf
                      534 [535]
                      (.node
                        .leaf
                        536 [537]
                        .leaf
                      )
                    )
                  )
                )
              )
              538 [539]
              (.node
                (.node
                  (.node
                    (.node
                      .leaf
                      540 [541]
                      .leaf
                    )
                    542 [543]
                    (.node
                      .leaf
                      544 [414]
                      (.node
                        .leaf
                        546 [547]
                        .leaf
                      )
                    )
                  )
                  548 [549]
                  (.node
                    (.node
                      .leaf
                      550 [551]
                      (.node
                        .leaf
                        552 [553]
                        .leaf
                      )
                    )
                    554 [555]
                    (.node
                      .leaf
                      556 [557]
                      (.node
                        .leaf
                        558 [559]
                        .leaf
                      )
                    )
                  )
                )
                560 [561]
                (.node
                  (.node
                    (.node
                      .leaf
                      562 [563]
                      .leaf
                    )
                    570 [11365]
                    (.node
                      .leaf
                      571 [572]
                      (.node
                        .leaf
                        573 [410]
                        .leaf
                      )
                    )
                  )
                  574 [11366]
                  (.node
                    (.node
                      .leaf
                      577 [578]
                      (.node
                        .leaf
                        579 [384]
                        .leaf
                      )
                    )
                    580 [649]
                    (.node
                      .leaf
                      581 [652]
                      (.node
                        .leaf
                        582 [583]
                        .leaf
                      )
                    )
                  )
                )
              )
            )
            584 [585]
            (.node
              (.node
                (.node
                  (.node
                    (.node
                      .leaf
                      586 [587]
                      .leaf
                    )
                    588 [589]
                    (.node
                      .leaf
                      590 [591]
                      (.node
                        .leaf
                        880 [881]
                        .leaf
                      )
                    )
                  )
                  882 [883]
                  (.node
                    (.node
                      .leaf
                      886 [887]
                      (.node
                        .leaf
                        895 [1011]
                        .leaf
                      )
                    )
                    902 [940]
                    (.node
                      .leaf
                      904 [941]
                      (.node
                        .leaf
                        905 [942]
                        .leaf
                      )
                    )
                  )
                )
                906 [943]
                (.node
                  (.node
                    (.node
                      .leaf
                      908 [972]
                      .leaf
                    )
                    910 [973]
                    (.node
                      .leaf
                      911 [974]
                      (.node
                        .leaf
                        913 [945]
                        .leaf
                      )
                    )
                  )
                  914 [946]
                  (.node
                    (.node
                      .leaf
                      915 [947]
                      (.node
                        .leaf
                        916 [948]
                        .leaf
                      )
                    )
                    917 [949]
                    (.node
                      .leaf
                      918 [950]
                      (.node
                        .leaf
                        919 [951]
                        .leaf
                      )
                    )
                  )
                )
              )
              920 [952]
              (.node
                (.node
                  (.node
                    (.node
                      .leaf
                      921 [953]
                      .leaf
                    )
                    922 [954]
                    (.node
                      .leaf
                      923 [955]
                      (.node
                        .leaf
                        924 [956]
                        .leaf
                      )
                    )
                  )
                  925 [957]
                  (.node
                    (.node
                      .leaf
                      926 [958]
                      (.node
                        .leaf
                        927 [959]
                        .leaf
                      )
                    )
                    928 [960]
                    (.node
                      .leaf
                      929 [961]
                      (.node
                        .leaf
                        931 [963]
                        .leaf
                      )
                    )
                  )
                )
                932 [964]
                (.node
                  (.node
                    (.node
                      .leaf
                      933 [965]
                      (.node
                        .leaf
                        934 [966]
                        .leaf
                      )
                    )
                    935 [967]
                    (.node
                      .leaf
                      936 [968]
                      (.node
                        .leaf
                        937 [969]
                        .leaf
                      )
                    )
                  )
                  938 [970]
                  (.node
                    (.node
                      .leaf
                      939 [971]
                      (.node
                        .leaf
                        975 [983]
                        .leaf
                      )
                    )
                    984 [985]
                    (.node
                      .leaf
                      986 [987]
                      (.node
                        .leaf
                        988 [989]
                        .leaf
                      )
                    )
                  )
                )
              )
            )
          )
          990 [991]
          (.node
            (.node
              (.node
                (.node
                  (.node
                    (.node
                      .leaf
                      992 [993]
                      .leaf
                    )
                    994 [995]
                    (.node
                      .leaf
                      996 [997]
                      (.node
                        .leaf
                        998 [999]
                        .leaf
                      )
                    )
                  )
                  1000 [1001]
                  (.node
                    (.node
                      .leaf
                      1002 [1003]
                      (.node
                        .leaf
                        1004 [1005]
                        .leaf
                      )
                    )
                    1006 [1007]
                    (.node
                      .leaf
                      1012 [952]
                      (.node
                        .leaf
                        1015 [1016]
                        .leaf
                      )
                    )
                  )
                )
                1017 [1010]
                (.node
                  (.node
                    (.node
                      .leaf
                      1018 [1019]
                      .leaf
                    )
                    1021 [891]
                    (.node
                      .leaf
                      1022 [892]
                      (.node
                        .leaf
                        1023 [893]
                        .leaf
                      )
                    )
                  )
                  1024 [1104]
                  (.node
                    (.node
                      .leaf
                      1025 [1105]
                      (.node
                        .leaf
                        1026 [1106]
                        .leaf
                      )
                    )
                    1027 [1107]
                    (.node
                      .leaf
                      1028 [1108]
                      (.node
                        .leaf
                        1029 [1109]
                        .leaf
                      )
                    )
                  )
                )
              )
              1030 [1110]
              (.node
                (.node
                  (.node
                    (.node
                      .leaf
                      1031 [1111]
                      .leaf
                    )
                    1032 [1112]
                    (.node
                      .leaf
                      1033 [1113]
                      (.node
                        .leaf
                        1034 [1114]
                        .leaf
                      )
                    )
                  )
                  1035 [1115]
                  (.node
                    (.node
                      .leaf
                      1036 [1116]
                      (.node
                        .leaf
                        1037 [1117]
                        .leaf
                      )
                    )
                    1038 [1118]
                    (.node
                      .leaf
                      1039 [1119]
                      (.node
                        .leaf
                        1040 [1072]
                        .leaf
                      )
                    )
                  )
                )
                1041 [1073]
                (.node
                  (.node
                    (.node
                      .leaf
                      1042 [1074]
                      (.node
                        .leaf
                        1043 [1075]
                        .leaf
                      )
                    )
                    1044 [1076]
                    (.node
                      .leaf
                      1045 [1077]
                      (.node
                        .leaf
                        1046 [1078]
                        .leaf
                      )
                    )
                  )
                  1047 [1079]
                  (.node
                    (.node
                      .leaf
                      1048 [1080]
                      (.node
                        .leaf
                        1049 [1081]
                        .leaf
                      )
                    )
                    1050 [1082]
                    (.node
                      .leaf
                      1051 [1083]
                      (.node
                        .leaf
                        1052 [1084]
                        .leaf
                      )
                    )
                  )
                )
              )
            )
            1053 [1085]
            (.node
              (.node
                (.node
                  (.node
                    (.node
                      .leaf
                      1054 [1086]
                      .leaf
                    )
                    1055 [1087]
                    (.node
                      .leaf
                      1056 [1088]
                      (.node
                        .leaf
                        1057 [1089]
                        .leaf
                      )
                    )
                  )
                  1058 [1090]
                  (.node
                    (.node
                      .leaf
                      1059 [1091]
                      (.node
                        .leaf
                        1060 [1092]
                        .leaf
                      )
                    )
                    1061 [1093]
                    (.node
                      .leaf
                      1062 [1094]
                      (.node
                        .leaf
                        1063 [1095]
                        .leaf
                      )
                    )
                  )
                )
                1064 [1096]
                (.node
                  (.node
                    (.node
                      .leaf
                      1065 [1097]
                      .leaf
                    )
                    1066 [1098]
                    (.node
                      .leaf
                      1067 [1099]
                      (.node
                        .leaf
                        1068 [1100]
                        .leaf
                      )
                    )
                  )
                  1069 [1101]
                  (.node
                    (.node
                      .leaf
                      1070 [1102]
                      (.node
                        .leaf
                        1071 [1103]
                        .leaf
                      )
                    )
                    1120 [1121]
                    (.node
                      .leaf
                      1122 [1123]
                      (.node
                        .leaf
                        1124 [1125]
                        .leaf
                      )
                    )
                  )
                )
              )
              1126 [1127]
              (.node
                (.node
                  (.node
                    (.node
                      .leaf
                      1128 [1129]
                      .leaf
                    )
                    1130 [1131]
                    (.node
                      .leaf
                      1132 [1133]
                      (.node
                        .leaf
                        1134 [1135]
                        .leaf
                      )
                    )
                  )
                  1136 [1137]
                  (.node
                    (.node
                      .leaf
                      1138 [1139]
                      (.node
                        .leaf
                        1140 [1141]
                        .leaf
                      )
                    )
                    1142 [1143]
                    (.node
                      .leaf
                      1144 [1145]
                      (.node
                        .leaf
                        1146 [1147]
                        .leaf
                      )
                    )
                  )
                )
                1148 [1149]
                (.node
                  (.node
                    (.node
                      .leaf
                      1150 [1151]
                      (.node
                        .leaf
                        1152 [1153]
                        .leaf
                      )
                    )
                    1162 [1163]
                    (.node
                      .leaf
                      1164 [1165]
                      (.node
                        .leaf
                        1166 [1167]
                        .leaf
                      )
                    )
                  )
                  1168 [1169]
                  (.node
                    (.node
                      .leaf
                      1170 [1171]
                      (.node
                        .leaf
                        1172 [1173]
                        .leaf
                      )
                    )
                    1174 [1175]
                    (.node
                      .leaf
                      1176 [1177]
                      (.node
                        .leaf
                        1178 [1179]
                        .leaf
                      )
                    )
                  )
                )
              )
            )
          )
        )
      )
      1180 [1181]
      (.node
        (.node
          (.node
            (.node
              (.node
                (.node
                  (.node
                    (.node
                      .leaf
                      1182 [1183]
                      .leaf
                    )
                    1184 [1185]
                    (.node
                      .leaf
                      1186 [1187]
                      (.node
                        .leaf
                        1188 [1189]
                        .leaf
                      )
                    )
                  )
                  1190 [1191]
                  (.node
                    (.node
                      .leaf
                      1192 [1193]
                      (.node
                        .leaf
                        1194 [1195]
                        .leaf
                      )
                    )
                    1196 [1197]
                    (.node
                      .leaf
                      1198 [1199]
                      (.node
                        .leaf
                        1200 [1201]
                        .leaf
                      )
                    )
                  )
                )
                1202 [1203]
                (.node
                  (.node
                    (.node
                      .leaf
                      1204 [1205]
                      .leaf
                    )
                    1206 [1207]
                    (.node
                      .leaf
                      1208 [1209]
                      (.node
                        .leaf
                        1210 [1211]
                        .leaf
                      )
                    )
                  )
                  1212 [1213]
                  (.node
                    (.node
                      .leaf
                      1214 [1215]
                      (.node
                        .leaf
                        1216 [1231]
                        .leaf
                      )
                    )
                    1217 [1218]
                    (.node
                      .leaf
                      1219 [1220]
                      (.node
                        .leaf
                        1221 [1222]
                        .leaf
                      )
                    )
                  )
                )
              )
              1223 [1224]
              (.node
                (.node
                  (.node
                    (.node
                      .leaf
                      1225 [1226]
                      .leaf
                    )
                    1227 [1228]
                    (.node
                      .leaf
                      1229 [1230]
                      (.node
                        .leaf
                        1232 [1233]
                        .leaf
                      )
                    )
                  )
                  1234 [1235]
                  (.node
                    (.node
                      .leaf
                      1236 [1237]
                      (.node
                        .leaf
                        1238 [1239]
                        .leaf
                      )
                    )
                    1240 [1241]
                    (.node
                      .leaf
                      1242 [1243]
                      (.node
                        .leaf
                        1244 [1245]
                        .leaf
                      )
                    )
                  )
                )
                1246 [1247]
                (.node
                  (.node
                    (.node
                      .leaf
                      1248 [1249]
                      .leaf
                    )
                    1250 [1251]
                    (.node
                      .leaf
                      1252 [1253]
                      (.node
                        .leaf
                        1254 [1255]
                        .leaf
                      )
                    )
                  )
                  1256 [1257]
                  (.node
                    (.node
                      .leaf
                      1258 [1259]
                      (.node
                        .leaf
                        1260 [1261]
                        .leaf
                      )
                    )
                    1262 [1263]
                    (.node
                      .leaf
                      1264 [1265]
                      (.node
                        .leaf
                        1266 [1267]
                        .leaf
                      )
                    )
                  )
                )
              )
            )
            1268 [1269]
            (.node
              (.node
                (.node
                  (.node
                    (.node
                      .leaf
                      1270 [1271]
                      .leaf
                    )
                    1272 [1273]
                    (.node
                      .leaf
                      1274 [1275]
                      (.node
                        .leaf
                        1276 [1277]
                        .leaf
                      )
                    )
                  )
                  1278 [1279]
                  (.node
                    (.node
                      .leaf
                      1280 [1281]
                      (.node
                        .leaf
                        1282 [1283]
                        .leaf
                      )
                    )
                    1284 [1285]
                    (.node
                      .leaf
                      1286 [1287]
                      (.node
                        .leaf
                        1288 [1289]
                        .leaf
                      )
                    )
                  )
                )
                1290 [1291]
                (.node
                  (.node
                    (.node
                      .leaf
                      1292 [1293]
                      .leaf
                    )
                    1294 [1295]
                    (.node
                      .leaf
                      1296 [1297]
                      (.node
                        .leaf
                        1298 [1299]
                        .leaf
                      )
                    )
                  )
                  1300 [1301]
                  (.node
                    (.node
                      .leaf
                      1302 [1303]
                      (.node
                        .leaf
                        1304 [1305]
                        .leaf
                      )
                    )
                    1306 [1307]
                    (.node
                      .leaf
                      1308 [1309]
                      (.node
                        .leaf
                        1310 [1311]
                        .leaf
                      )
                    )
                  )
                )
              )
              1312 [1313]
              (.node
                (.node
                  (.node
                    (.node
                      .leaf
                      1314 [1315]
                      .leaf
                    )
                    1316 [1317]
                    (.node
                      .leaf
                      1318 [1319]
                      (.node
                        .leaf
                        1320 [1321]
                        .leaf
                      )
                    )
                  )
                  1322 [1323]
                  (.node
                    (.node
                      .leaf
                      1324 [1325]
                      (.node
                        .leaf
                        1326 [1327]
                        .leaf
                      )
                    )
                    1329 [1377]
                    (.node
                      .leaf
                      1330 [1378]
                      (.node
                        .leaf
                        1331 [1379]
                        .leaf
                      )
                    )
                  )
                )
                1332 [1380]
                (.node
                  (.node
                    (.node
                      .leaf
                      1333 [1381]
                      (.node
                        .leaf
                        1334 [1382]
                        .leaf
                      )
                    )
                    1335 [1383]
                    (.node
                      .leaf
                      1336 [1384]
                      (.node
                        .leaf
                        1337 [1385]
                        .leaf
                      )
                    )
                  )
                  1338 [1386]
                  (.node
                    (.node
                      .leaf
                      1339 [1387]
                      (.node
                        .leaf
                        1340 [1388]
                        .leaf
                      )
                    )
                    1341 [1389]
                    (.node
                      .leaf
                      1342 [1390]
                      (.node
                        .leaf
                        1343 [1391]
                        .leaf
                      )
                    )
                  )
                )
              )
            )
          )
          1344 [1392]
          (.node
            (.node
              (.node
                (.node
                  (.node
                    (.node
                      .leaf
                      1345 [1393]
                      .leaf
                    )
                    1346 [1394]
                    (.node
                      .leaf
                      1347 [1395]
                      (.node
                        .leaf
                        1348 [1396]
                        .leaf
                      )
                    )
                  )
                  1349 [1397]
                  (.node
                    (.node
                      .leaf
                      1350 [1398]
                      (.node
                        .leaf
                        1351 [1399]
                        .leaf
                      )
                    )
                    1352 [1400]
                    (.node
                      .leaf
                      1353 [1401]
                      (.node
                        .leaf
                        1354 [1402]
                        .leaf
                      )
                    )
                  )
                )
                1355 [1403]
                (.node
                  (.node
                    (.node
                      .leaf
                      1356 [1404]
                      .leaf
                    )
                    1357 [1405]
                    (.node
                      .leaf
                      1358 [1406]
                      (.node
                        .leaf
                        1359 [1407]
                        .leaf
                      )
                    )
                  )
                  1360 [1408]
                  (.node
                    (.node
                      .leaf
                      1361 [1409]
                      (.node
                        .leaf
                        1362 [1410]
                        .leaf
                      )
                    )
                    1363 [1411]
                    (.node
                      .leaf
                      1364 [1412]
                      (.node
                        .leaf
                        1365 [1413]
                        .leaf
                      )
                    )
                  )
                )
              )
              1366 [1414]
              (.node
                (.node
                  (.node
                    (.node
                      .leaf
                      4256 [11520]
                      .leaf
                    )
                    4257 [11521]
                    (.node
                      .leaf
                      4258 [11522]
                      (.node
                        .leaf
                        4259 [11523]
                        .leaf
                      )
                    )
                  )
                  4260 [11524]
                  (.node
                    (.node
                      .leaf
                      4261 [11525]
                      (.node
                        .leaf
                        4262 [11526]
                        .leaf
                      )
                    )
                    4263 [11527]
                    (.node
                      .leaf
                      4264 [11528]
                      (.node
                        .leaf
                        4265 [11529]
                        .leaf
                      )
                    )
                  )
                )
                4266 [11530]
                (.node
                  (.node
                    (.node
                      .leaf
                      4267 [11531]
                      (.node
                        .leaf
                        4268 [11532]
                        .leaf
                      )
                    )
                    4269 [11533]
                    (.node
                      .leaf
                      4270 [11534]
                      (.node
                        .leaf
                        4271 [11535]
                        .leaf
                      )
                    )
                  )
                  4272 [11536]
                  (.node
                    (.node
                      .leaf
                      4273 [11537]
                      (.node
                        .leaf
                        4274 [11538]
                        .leaf
                      )
                    )
                    4275 [11539]
                    (.node
                      .leaf
                      4276 [11540]
                      (.node
                        .leaf
                        4277 [11541]
                        .leaf
                      )
                    )
                  )
                )
              )
            )
            4278 [11542]
            (.node
              (.node
                (.node
                  (.node
                    (.node
                      .leaf
                      4279 [11543]
                      .leaf
                    )
                    4280 [11544]
                    (.node
                      .leaf
                      4281 [11545]
                      (.node
                        .leaf
                        4282 [11546]
                        .leaf
                      )
                    )
                  )
                  4283 [11547]
                  (.node
                    (.node
                      .leaf
                      4284 [11548]
                      (.node
                        .leaf
                        4285 [11549]
                        .leaf
                      )
                    )
                    4286 [11550]
                    (.node
                      .leaf
                      4287 [11551]
                      (.node
                        .leaf
                        4288 [11552]
                        .leaf
                      )
                    )
                  )
                )
                4289 [11553]
                (.node
                  (.node
                    (.node
                      .leaf
                      4290 [11554]
                      .leaf
                    )
                    4291 [11555]
                    (.node
                      .leaf
                      4292 [11556]
                      (.node
                        .leaf
                        4293 [11557]
                        .leaf
                      )
                    )
                  )
                  4295 [11559]
                  (.node
                    (.node
                      .leaf
                      4301 [11565]
                      (.node
                        .leaf
                        5024 [43888]
                        .leaf
                      )
                    )
                    5025 [43889]
                    (.node
                      .leaf
                      5026 [43890]
                      (.node
                        .leaf
                        5027 [43891]
                        .leaf
                      )
                    )
                  )
                )
              )
              5028 [43892]
              (.node
                (.node
                  (.node
                    (.node
                      .leaf
                      5029 [43893]
                      .leaf
                    )
                    5030 [43894]
                    (.node
                      .leaf
                      5031 [43895]
                      (.node
                        .leaf
                        5032 [43896]
                        .leaf
                      )
                    )
                  )
                  5033 [43897]
                  (.node
                    (.node
                      .leaf
                      5034 [43898]
                      (.node
                        .leaf
                        5035 [43899]
                        .leaf
                      )
                    )
                    5036 [43900]
                    (.node
                      .leaf
                      5037 [43901]
                      (.node
                        .leaf
                        5038 [43902]
                        .leaf
                      )
                    )
                  )
                )
                5039 [43903]
                (.node
                  (.node
                    (.node
                      .leaf
                      5040 [43904]
                      (.node
                        .leaf
                        5041 [43905]
                        .leaf
                      )
                    )
                    5042 [43906]
                    (.node
                      .leaf
                      5043 [43907]
                      (.node
                        .leaf
                        5044 [43908]
                        .leaf
                      )
                    )
                  )
                  5045 [43909]
                  (.node
                    (.node
                      .leaf
                      5046 [43910]
                      (.node
                        .leaf
                        5047 [43911]
                        .leaf
                      )
                    )
                    5048 [43912]
                    (.node
                      .leaf
                      5049 [43913]
                      (.node
                        .leaf
                        5050 [43914]
                        .leaf
                      )
                    )
                  )
                )
              )
            )
          )
        )
        5051 [43915]
        (.node
          (.node
            (.node
              (.node
                (.node
                  (.node
                    (.node
                      .leaf
                      5052 [43916]
                      .leaf
                    )
                    5053 [43917]
                    (.node
                      .leaf
                      5054 [43918]
                      (.node
                        .leaf
                        5055 [43919]
                        .leaf
                      )
                    )
                  )
                  5056 [43920]
                  (.node
                    (.node
                      .leaf
                      5057 [43921]
                      (.node
                        .leaf
                        5058 [43922]
                        .leaf
                      )
                    )
                    5059 [43923]
                    (.node
                      .leaf
                      5060 [43924]
                      (.node
                        .leaf
                        5061 [43925]
                        .leaf
                      )
                    )
                  )
                )
                5062 [43926]
                (.node
                  (.node
                    (.node
                      .leaf
                      5063 [43927]
                      .leaf
                    )
                    5064 [43928]
                    (.node
                      .leaf
                      5065 [43929]
                      (.node
                        .leaf
                        5066 [43930]
                        .leaf
                      )
                    )
                  )
                  5067 [43931]
                  (.node
                    (.node
                      .leaf
                      5068 [43932]
                      (.node
                        .leaf
                        5069 [43933]
                        .leaf
                      )
                    )
                    5070 [43934]
                    (.node
                      .leaf
                      5071 [43935]
                      (.node
                        .leaf
                        5072 [43936]
                        .leaf
                      )
                    )
                  )
                )
              )
              5073 [43937]
              (.node
                (.node
                  (.node
                    (.node
                      .leaf
                      5074 [43938]
                      .leaf
                    )
                    5075 [43939]
                    (.node
                      .leaf
                      5076 [43940]
                      (.node
                        .leaf
                        5077 [43941]
                        .leaf
                      )
                    )
                  )
                  5078 [43942]
                  (.node
                    (.node
                      .leaf
                      5079 [43943]
                      (.node
                        .leaf
                        5080 [43944]
                        .leaf
                      )
                    )
                    5081 [43945]
                    (.node
                      .leaf
                      5082 [43946]
                      (.node
                        .leaf
                        5083 [43947]
                        .leaf
                      )
                    )
                  )
                )
                5084 [43948]
                (.node
                  (.node
                    (.node
                      .leaf
                      5085 [43949]
                      (.node
                        .leaf
                        5086 [43950]
                        .leaf
                      )
                    )
                    5087 [43951]
                    (.node
                      .leaf
                      5088 [43952]
                      (.node
                        .leaf
                        5089 [43953]
                        .leaf
                      )
                    )
                  )
                  5090 [43954]
                  (.node
                    (.node
                      .leaf
                      5091 [43955]
                      (.node
                        .leaf
                        5092 [43956]
                        .leaf
                      )
                    )
                    5093 [43957]
                    (.node
                      .leaf
                      5094 [43958]
                      (.node
                        .leaf
                        5095 [43959]
                        .leaf
                      )
                    )
                  )
                )
              )
            )
            5096 [43960]
            (.node
              (.node
                (.node
                  (.node
                    (.node
                      .leaf
                      5097 [43961]
                      .leaf
                    )
                    5098 [43962]
                    (.node
                      .leaf
                      5099 [43963]
                      (.node
                        .leaf
                        5100 [43964]
                        .leaf
                      )
                    )
                  )
                  5101 [43965]
                  (.node
                    (.node
                      .leaf
                      5102 [43966]
                      (.node
                        .leaf
                        5103 [43967]
                        .leaf
                      )
                    )
                    5104 [5112]
                    (.node
                      .leaf
                      5105 [5113]
                      (.node
                        .leaf
                        5106 [5114]
                        .leaf
                      )
                    )
                  )
                )
                5107 [5115]
                (.node
                  (.node
                    (.node
                      .leaf
                      5108 [5116]
                      .leaf
                    )
                    5109 [5117]
                    (.node
                      .leaf
                      7312 [4304]
                      (.node
                        .leaf
                        7313 [4305]
                        .leaf
                      )
                    )
                  )
                  7314 [4306]
                  (.node
                    (.node
                      .leaf
                      7315 [4307]
                      (.node
                        .leaf
                        7316 [4308]
                        .leaf
                      )
                    )
                    7317 [4309]
                    (.node
                      .leaf
                      7318 [4310]
                      (.node
                        .leaf
                        7319 [4311]
                        .leaf
                      )
                    )
                  )
                )
              )
              7320 [4312]
              (.node
                (.node
                  (.node
                    (.node
                      .leaf
                      7321 [4313]
                      .leaf
                    )
                    7322 [4314]
                    (.node
                      .leaf
                      7323 [4315]
                      (.node
                        .leaf
                        7324 [4316]
                        .leaf
                      )
                    )
                  )
                  7325 [4317]
                  (.node
                    (.node
                      .leaf
                      7326 [4318]
                      (.node
                        .leaf
                        7327 [4319]
                        .leaf
                      )
                    )
                    7328 [4320]
                    (.node
                      .leaf
                      7329 [4321]
                      (.node
                        .leaf
                        7330 [4322]
                        .leaf
                      )
                    )
                  )
                )
                7331 [4323]
                (.node
                  (.node
                    (.node
                      .leaf
                      7332 [4324]
                      (.node
                        .leaf
                        7333 [4325]
                        .leaf
                      )
                    )
                    7334 [4326]
                    (.node
                      .leaf
                      7335 [4327]
                      (.node
                        .leaf
                        7336 [4328]
                        .leaf
                      )
                    )
                  )
                  7337 [4329]
                  (.node
                    (.node
                      .leaf
                      7338 [4330]
                      (.node
                        .leaf
                        7339 [4331]
                        .leaf
                      )
                    )
                    7340 [4332]
                    (.node
                      .leaf
                      7341 [4333]
                      (.node
                        .leaf
                        7342 [4334]
                        .leaf
                      )
                    )
                  )
                )
              )
            )
          )
          7343 [4335]
          (.node
            (.node
              (.node
                (.node
                  (.node
                    (.node
                      .leaf
                      7344 [4336]
                      .leaf
                    )
                    7345 [4337]
                    (.node
                      .leaf
                      7346 [4338]
                      (.node
                        .leaf
                        7347 [4339]
                        .leaf
                      )
                    )
                  )
                  7348 [4340]
                  (.node
                    (.node
                      .leaf
                      7349 [4341]
                      (.node
                        .leaf
                        7350 [4342]
                        .leaf
                      )
                    )
                    7351 [4343]
                    (.node
                      .leaf
                      7352 [4344]
                      (.node
                        .leaf
                        7353 [4345]
                        .leaf
                      )
                    )
                  )
                )
                7354 [4346]
                (.node
                  (.node
                    (.node
                      .leaf
                      7357 [4349]
                      .leaf
                    )
                    7358 [4350]
                    (.node
                      .leaf
                      7359 [4351]
                      (.node
                        .leaf
                        7680 [7681]
                        .leaf
                      )
                    )
                  )
                  7682 [7683]
                  (.node
                    (.node
                      .leaf
                      7684 [7685]
                      (.node
                        .leaf
                        7686 [7687]
                        .leaf
                      )
                    )
                    7688 [7689]
                    (.node
                      .leaf
                      7690 [7691]
                      (.node
                        .leaf
                        7692 [7693]
                        .leaf
                      )
                    )
                  )
                )
              )
              7694 [7695]
              (.node
                (.node
                  (.node
                    (.node
                      .leaf
                      7696 [7697]
                      .leaf
                    )
                    7698 [7699]
                    (.node
                      .leaf
                      7700 [7701]
                      (.node
                        .leaf
                        7702 [7703]
                        .leaf
                      )
                    )
                  )
                  7704 [7705]
                  (.node
                    (.node
                      .leaf
                      7706 [7707]
                      (.node
                        .leaf
                        7708 [7709]
                        .leaf
                      )
                    )
                    7710 [7711]
                    (.node
                      .leaf
                      7712 [7713]
                      (.node
                        .leaf
                        7714 [7715]
                        .leaf
                      )
                    )
                  )
                )
                7716 [7717]
                (.node
                  (.node
                    (.node
                      .leaf
                      7718 [7719]
                      (.node
                        .leaf
                        7720 [7721]
                        .leaf
                      )
                    )
                    7722 [7723]
                    (.node
                      .leaf
                      7724 [7725]
                      (.node
                        .leaf
                        7726 [7727]
                        .leaf
                      )
                    )
                  )
                  7728 [7729]
                  (.node
                    (.node
                      .leaf
                      7730 [7731]
                      (.node
                        .leaf
                        7732 [7733]
                        .leaf
                      )
                    )
                    7734 [7735]
                    (.node
                      .leaf
                      7736 [7737]
                      (.node
                        .leaf
                        7738 [7739]
                        .leaf
                      )
                    )
                  )
                )
              )
            )
            7740 [7741]
            (.node
              (.node
                (.node
                  (.node
                    (.node
                      .leaf
                      7742 [7743]
                      .leaf
                    )
                    7744 [7745]
                    (.node
                      .leaf
                      7746 [7747]
                      (.node
                        .leaf
                        7748 [7749]
                        .leaf
                      )
                    )
                  )
                  7750 [7751]
                  (.node
                    (.node
                      .leaf
                      7752 [7753]
                      (.node
                        .leaf
                        7754 [7755]
                        .leaf
                      )
                    )
                    7756 [7757]
                    (.node
                      .leaf
                      7758 [7759]
                      (.node
                        .leaf
                        7760 [7761]
                        .leaf
                      )
                    )
                  )
                )
                7762 [7763]
                (.node
                  (.node
                    (.node
                      .leaf
                      7764 [7765]
                      .leaf
                    )
                    7766 [7767]
                    (.node
                      .leaf
                      7768 [7769]
                      (.node
                        .leaf
                        7770 [7771]
                        .leaf
                      )
                    )
                  )
                  7772 [7773]
                  (.node
                    (.node
                      .leaf
                      7774 [7775]
                      (.node
                        .leaf
                        7776 [7777]
                        .leaf
                      )
                    )
                    7778 [7779]
                    (.node
                      .leaf
                      7780 [7781]
                      (.node
                        .leaf
                        7782 [7783]
                        .leaf
                      )
                    )
                  )
                )
              )
              7784 [7785]
              (.node
                (.node
                  (.node
                    (.node
                      .leaf
                      7786 [7787]
                      .leaf
                    )
                    7788 [7789]
                    (.node
                      .leaf
                      7790 [7791]
                      (.node
                        .leaf
                        7792 [7793]
                        .leaf
                      )
                    )
                  )
                  7794 [7795]
                  (.node
                    (.node
                      .leaf
                      7796 [7797]
                      (.node
                        .leaf
                        7798 [7799]
                        .leaf
                      )
                    )
                    7800 [7801]
                    (.node
                      .leaf
                      7802 [7803]
                      (.node
                        .leaf
                        7804 [7805]
                        .leaf
                      )
                    )
                  )
                )
                7806 [7807]
                (.node
                  (.node
                    (.node
                      .leaf
                      7808 [7809]
                      (.node
                        .leaf
                        7810 [7811]
                        .leaf
                      )
                    )
                    7812 [7813]
                    (.node
                      .leaf
                      7814 [7815]
                      (.node
                        .leaf
                        7816 [7817]
                        .leaf
                      )
                    )
                  )
                  7818 [7819]
                  (.node
                    (.node
                      .leaf
                      7820 [7821]
                      (.node
                        .leaf
                        7822 [7823]
                        .leaf
                      )
                    )
                    7824 [7825]
                    (.node
                      .leaf
                      7826 [7827]
                      (.node
                        .leaf
                        7828 [7829]
                        .leaf
                      )
                    )
                  )
                )
              )
            )
          )
        )
      )
    )
    7838 [223]
    (.node
      (.node
        (.node
          (.node
            (.node
              (.node
                (.node
                  (.node
                    (.node
                      .leaf
                      7840 [7841]
                      .leaf
                    )
                    7842 [7843]
                    (.node
                      .leaf
                      7844 [7845]
                      (.node
                        .leaf
                        7846 [7847]
                        .leaf
                      )
                    )
                  )
                  7848 [7849]
                  (.node
                    (.node
                      .leaf
                      7850 [7851]
                      (.node
                        .leaf
                        7852 [7853]
                        .leaf
                      )
                    )
                    7854 [7855]
                    (.node
                      .leaf
                      7856 [7857]
                      (.node
                        .leaf
                        7858 [7859]
                        .leaf
                      )
                    )
                  )
                )
                7860 [7861]
                (.node
                  (.node
                    (.node
                      .leaf
                      7862 [7863]
                      .leaf
                    )
                    7864 [7865]
                    (.node
                      .leaf
                      7866 [7867]
                      (.node
                        .leaf
                        7868 [7869]
                        .leaf
                      )
                    )
                  )
                  7870 [7871]
                  (.node
                    (.node
                      .leaf
                      7872 [7873]
                      (.node
                        .leaf
                        7874 [7875]
                        .leaf
                      )
                    )
                    7876 [7877]
                    (.node
                      .leaf
                      7878 [7879]
                      (.node
                        .leaf
                        7880 [7881]
                        .leaf
                      )
                    )
                  )
                )
              )
              7882 [7883]
              (.node
                (.node
                  (.node
                    (.node
                      .leaf
                      7884 [7885]
                      .leaf
                    )
                    7886 [7887]
                    (.node
                      .leaf
                      7888 [7889]
                      (.node
                        .leaf
                        7890 [7891]
                        .leaf
                      )
                    )
                  )
                  7892 [7893]
                  (.node
                    (.node
                      .leaf
                      7894 [7895]
                      (.node
                        .leaf
                        7896 [7897]
                        .leaf
                      )
                    )
                    7898 [7899]
                    (.node
                      .leaf
                      7900 [7901]
                      (.node
                        .leaf
                        7902 [7903]
                        .leaf
                      )
                    )
                  )
                )
                7904 [7905]
                (.node
                  (.node
                    (.node
                      .leaf
                      7906 [7907]
                      .leaf
                    )
                    7908 [7909]
                    (.node
                      .leaf
                      7910 [7911]
                      (.node
                        .leaf
                        7912 [7913]
                        .leaf
                      )
                    )
                  )
                  7914 [7915]
                  (.node
                    (.node
                      .leaf
                      7916 [7917]
                      (.node
                        .leaf
                        7918 [7919]
                        .leaf
                      )
                    )
                    7920 [7921]
                    (.node
                      .leaf
                      7922 [7923]
                      (.node
                        .leaf
                        7924 [7925]
                        .leaf
                      )
                    )
                  )
                )
              )
            )
            7926 [7927]
            (.node
              (.node
                (.node
                  (.node
                    (.node
                      .leaf
                      7928 [7929]
                      .leaf
                    )
                    7930 [7931]
                    (.node
                      .leaf
                      7932 [7933]
                      (.node
                        .leaf
                        7934 [7935]
                        .leaf
                      )
                    )
                  )
                  7944 [7936]
                  (.node
                    (.node
                      .leaf
                      7945 [7937]
                      (.node
                        .leaf
                        7946 [7938]
                        .leaf
                      )
                    )
                    7947 [7939]
                    (.node
                      .leaf
                      7948 [7940]
                      (.node
                        .leaf
                        7949 [7941]
                        .leaf
                      )
                    )
                  )
                )
                7950 [7942]
                (.node
                  (.node
                    (.node
                      .leaf
                      7951 [7943]
                      .leaf
                    )
                    7960 [7952]
                    (.node
                      .leaf
                      7961 [7953]
                      (.node
                        .leaf
                        7962 [7954]
                        .leaf
                      )
                    )
                  )
                  7963 [7955]
                  (.node
                    (.node
                      .leaf
                      7964 [7956]
                      (.node
                        .leaf
                        7965 [7957]
                        .leaf
                      )
                    )
                    7976 [7968]
                    (.node
                      .leaf
                      7977 [7969]
                      (.node
                        .leaf
                        7978 [7970]
                        .leaf
                      )
                    )
                  )
                )
              )
              7979 [7971]
              (.node
                (.node
                  (.node
                    (.node
                      .leaf
                      7980 [7972]
                      .leaf
                    )
                    7981 [7973]
                    (.node
                      .leaf
                      7982 [7974]
                      (.node
                        .leaf
                        7983 [7975]
                        .leaf
                      )
                    )
                  )
                  7992 [7984]
                  (.node
                    (.node
                      .leaf
                      7993 [7985]
                      (.node
                        .leaf
                        7994 [7986]
                        .leaf
                      )
                    )
                    7995 [7987]
                    (.node
                      .leaf
                      7996 [7988]
                      (.node
                        .leaf
                        7997 [7989]
                        .leaf
                      )
                    )
                  )
                )
                7998 [7990]
                (.node
                  (.node
                    (.node
                      .leaf
                      7999 [7991]
                      (.node
                        .leaf
                        8008 [8000]
                        .leaf
                      )
                    )
                    8009 [8001]
                    (.node
                      .leaf
                      8010 [8002]
                      (.node
                        .leaf
                        8011 [8003]
                        .leaf
                      )
                    )
                  )
                  8012 [8004]
                  (.node
                    (.node
                      .leaf
                      8013 [8005]
                      (.node
                        .leaf
                        8025 [8017]
                        .leaf
                      )
                    )
                    8027 [8019]
                    (.node
                      .leaf
                      8029 [8021]
                      (.node
                        .leaf
                        8031 [8023]
                        .leaf
                      )
                    )
                  )
                )
              )
            )
          )
          8040 [8032]
          (.node
            (.node
              (.node
                (.node
                  (.node
                    (.node
                      .leaf
                      8041 [8033]
                      .leaf
                    )
                    8042 [8034]
                    (.node
                      .leaf
                      8043 [8035]
                      (.node
                        .leaf
                        8044 [8036]
                        .leaf
                      )
                    )
                  )
                  8045 [8037]
                  (.node
                    (.node
                      .leaf
                      8046 [8038]
                      (.node
                        .leaf
                        8047 [8039]
                        .leaf
                      )
                    )
                    8072 [8064]
                    (.node
                      .leaf
                      8073 [8065]
                      (.node
                        .leaf
                        8074 [8066]
                        .leaf
                      )
                    )
                  )
                )
                8075 [8067]
                (.node
                  (.node
                    (.node
                      .leaf
                      8076 [8068]
                      .leaf
                    )
                    8077 [8069]
                    (.node
                      .leaf
                      8078 [8070]
                      (.node
                        .leaf
                        8079 [8071]
                        .leaf
                      )
                    )
                  )
                  8088 [8080]
                  (.node
                    (.node
                      .leaf
                      8089 [8081]
                      (.node
                        .leaf
                        8090 [8082]
                        .leaf
                      )
                    )
                    8091 [8083]
                    (.node
                      .leaf
                      8092 [8084]
                      (.node
                        .leaf
                        8093 [8085]
                        .leaf
                      )
                    )
                  )
                )
              )
              8094 [8086]
              (.node
                (.node
                  (.node
                    (.node
                      .leaf
                      8095 [8087]
                      .leaf
                    )
                    8104 [8096]
                    (.node
                      .leaf
                      8105 [8097]
                      (.node
                        .leaf
                        8106 [8098]
                        .leaf
                      )
                    )
                  )
                  8107 [8099]
                  (.node
                    (.node
                      .leaf
                      8108 [8100]
                      (.node
                        .leaf
                        8109 [8101]
                        .leaf
                      )
                    )
                    8110 [8102]
                    (.node
                      .leaf
                      8111 [8103]
                      (.node
                        .leaf
                        8120 [8112]
                        .leaf
                      )
                    )
                  )
                )
                8121 [8113]
                (.node
                  (.node
                    (.node
                      .leaf
                      8122 [8048]
                      (.node
                        .leaf
                        8123 [8049]
                        .leaf
                      )
                    )
                    8124 [8115]
                    (.node
                      .leaf
                      8136 [8050]
                      (.node
                        .leaf
                        8137 [8051]
                        .leaf
                      )
                    )
                  )
                  8138 [8052]
                  (.node
                    (.node
                      .leaf
                      8139 [8053]
                      (.node
                        .leaf
                        8140 [8131]
                        .leaf
                      )
                    )
                    8152 [8144]
                    (.node
                      .leaf
                      8153 [8145]
                      (.node
                        .leaf
                        8154 [8054]
                        .leaf
                      )
                    )
                  )
                )
              )
            )
            8155 [8055]
            (.node
              (.node
                (.node
                  (.node
                    (.node
                      .leaf
                      8168 [8160]
                      .leaf
                    )
                    8169 [8161]
                    (.node
                      .leaf
                      8170 [8058]
                      (.node
                        .leaf
                        8171 [8059]
                        .leaf
                      )
                    )
                  )
                  8172 [8165]
                  (.node
                    (.node
                      .leaf
                      8184 [8056]
                      (.node
                        .leaf
                        8185 [8057]
                        .leaf
                      )
                    )
                    8186 [8060]
                    (.node
                      .leaf
                      8187 [8061]
                      (.node
                        .leaf
                        8188 [8179]
                        .leaf
                      )
                    )
                  )
                )
                8486 [969]
                (.node
                  (.node
                    (.node
                      .leaf
                      8490 [107]
                      .leaf
                    )
                    8491 [229]
                    (.node
                      .leaf
                      8498 [8526]
                      (.node
                        .leaf
                        8544 [8560]
                        .leaf
                      )
                    )
                  )
                  8545 [8561]
                  (.node
                    (.node
                      .leaf
                      8546 [8562]
                      (.node
                        .leaf
                        8547 [8563]
                        .leaf
                      )
                    )
                    8548 [8564]
                    (.node
                      .leaf
                      8549 [8565]
                      (.node
                        .leaf
                        8550 [8566]
                        .leaf
                      )
                    )
                  )
                )
              )
              8551 [8567]
              (.node
                (.node
                  (.node
                    (.node
                      .leaf
                      8552 [8568]
                      .leaf
                    )
                    8553 [8569]
                    (.node
                      .leaf
                      8554 [8570]
                      (.node
                        .leaf
                        8555 [8571]
                        .leaf
                      )
                    )
                  )
                  8556 [8572]
                  (.node
                    (.node
                      .leaf
                      8557 [8573]
                      (.node
                        .leaf
                        8558 [8574]
                        .leaf
                      )
                    )
                    8559 [8575]
                    (.node
                      .leaf
                      8579 [8580]
                      (.node
                        .leaf
                        9398 [9424]
                        .leaf
                      )
                    )
                  )
                )
                9399 [9425]
                (.node
                  (.node
                    (.node
                      .leaf
                      9400 [9426]
                      (.node
                        .leaf
                        9401 [9427]
                        .leaf
                      )
                    )
                    9402 [9428]
                    (.node
                      .leaf
                      9403 [9429]
                      (.node
                        .leaf
                        9404 [9430]
                        .leaf
                      )
                    )
                  )
                  9405 [9431]
                  (.node
                    (.node
                      .leaf
                      9406 [9432]
                      (.node
                        .leaf
                        9407 [9433]
                        .leaf
                      )
                    )
                    9408 [9434]
                    (.node
                      .leaf
                      9409 [9435]
                      (.node
                        .leaf
                        9410 [9436]
                        .leaf
                      )
                    )
                  )
                )
              )
            )
          )
        )
        9411 [9437]
        (.node
          (.node
            (.node
              (.node
                (.node
                  (.node
                    (.node
                      .leaf
                      9412 [9438]
                      .leaf
                    )
                    9413 [9439]
                    (.node
                      .leaf
                      9414 [9440]
                      (.node
                        .leaf
                        9415 [9441]
                        .leaf
                      )
                    )
                  )
                  9416 [9442]
                  (.node
                    (.node
                      .leaf
                      9417 [9443]
                      (.node
                        .leaf
                        9418 [9444]
                        .leaf
                      )
                    )
                    9419 [9445]
                    (.node
                      .leaf
                      9420 [9446]
                      (.node
                        .leaf
                        9421 [9447]
                        .leaf
                      )
                    )
                  )
                )
                9422 [9448]
                (.node
                  (.node
                    (.node
                      .leaf
                      9423 [9449]
                      .leaf
                    )
                    11264 [11312]
                    (.node
                      .leaf
                      11265 [11313]
                      (.node
                        .leaf
                        11266 [11314]
                        .leaf
                      )
                    )
                  )
                  11267 [11315]
                  (.node
                    (.node
                      .leaf
                      11268 [11316]
                      (.node
                        .leaf
                        11269 [11317]
                        .leaf
                      )
                    )
                    11270 [11318]
                    (.node
                      .leaf
                      11271 [11319]
                      (.node
                        .leaf
                        11272 [11320]
                        .leaf
                      )
                    )
                  )
                )
              )
              11273 [11321]
              (.node
                (.node
                  (.node
                    (.node
                      .leaf
                      11274 [11322]
                      .leaf
                    )
                    11275 [11323]
                    (.node
                      .leaf
                      11276 [11324]
                      (.node
                        .leaf
                        11277 [11325]
                        .leaf
                      )
                    )
                  )
                  11278 [11326]
                  (.node
                    (.node
                      .leaf
                      11279 [11327]
                      (.node
                        .leaf
                        11280 [11328]
                        .leaf
                      )
                    )
                    11281 [11329]
                    (.node
                      .leaf
                      11282 [11330]
                      (.node
                        .leaf
                        11283 [11331]
                        .leaf
                      )
                    )
                  )
                )
                11284 [11332]
                (.node
                  (.node
                    (.node
                      .leaf
                      11285 [11333]
                      .leaf
                    )
                    11286 [11334]
                    (.node
                      .leaf
                      11287 [11335]
                      (.node
                        .leaf
                        11288 [11336]
                        .leaf
                      )
                    )
                  )
                  11289 [11337]
                  (.node
                    (.node
                      .leaf
                      11290 [11338]
                      (.node
                        .leaf
                        11291 [11339]
                        .leaf
                      )
                    )
                    11292 [11340]
                    (.node
                      .leaf
                      11293 [11341]
                      (.node
                        .leaf
                        11294 [11342]
                        .leaf
                      )
                    )
                  )
                )
              )
            )
            11295 [11343]
            (.node
              (.node
                (.node
                  (.node
                    (.node
                      .leaf
                      11296 [11344]
                      .leaf
                    )
                    11297 [11345]
                    (.node
                      .leaf
                      11298 [11346]
                      (.node
                        .leaf
                        11299 [11347]
                        .leaf
                      )
                    )
                  )
                  11300 [11348]
                  (.node
                    (.node
                      .leaf
                      11301 [11349]
                      (.node
                        .leaf
                        11302 [11350]
                        .leaf
                      )
                    )
                    11303 [11351]
                    (.node
                      .leaf
                      11304 [11352]
                      (.node
                        .leaf
                        11305 [11353]
                        .leaf
                      )
                    )
                  )
                )
                11306 [11354]
                (.node
                  (.node
                    (.node
                      .leaf
                      11307 [11355]
                      .leaf
                    )
                    11308 [11356]
                    (.node
                      .leaf
                      11309 [11357]
                      (.node
                        .leaf
                        11310 [11358]
                        .leaf
                      )
                    )
                  )
                  11311 [11359]
                  (.node
                    (.node
                      .leaf
                      11360 [11361]
                      (.node
                        .leaf
                        11362 [619]
                        .leaf
                      )
                    )
                    11363 [7549]
                    (.node
                      .leaf
                      11364 [637]
                      (.node
                        .leaf
                        11367 [11368]
                        .leaf
                      )
                    )
                  )
                )
              )
              11369 [11370]
              (.node
                (.node
                  (.node
                    (.node
                      .leaf
                      11371 [11372]
                      .leaf
                    )
                    11373 [593]
                    (.node
                      .leaf
                      11374 [625]
                      (.node
                        .leaf
                        11375 [592]
                        .leaf
                      )
                    )
                  )
                  11376 [594]
                  (.node
                    (.node
                      .leaf
                      11378 [11379]
                      (.node
                        .leaf
                        11381 [11382]
                        .leaf
                      )
                    )
                    11390 [575]
                    (.node
                      .leaf
                      11391 [576]
                      (.node
                        .leaf
                        11392 [11393]
                        .leaf
                      )
                    )
                  )
                )
                11394 [11395]
                (.node
                  (.node
                    (.node
                      .leaf
                      11396 [11397]
                      (.node
                        .leaf
                        11398 [11399]
                        .leaf
                      )
                    )
                    11400 [11401]
                    (.node
                      .leaf
                      11402 [11403]
                      (.node
                        .leaf
                        11404 [11405]
                        .leaf
                      )
                    )
                  )
                  11406 [11407]
                  (.node
                    (.node
                      .leaf
                      11408 [11409]
                      (.node
                        .leaf
                        11410 [11411]
                        .leaf
                      )
                    )
                    11412 [11413]
                    (.node
                      .leaf
                      11414 [11415]
                      (.node
                        .leaf
                        11416 [11417]
                        .leaf
                      )
                    )
                  )
                )
              )
            )
          )
          11418 [11419]
          (.node
            (.node
              (.node
                (.node
                  (.node
                    (.node
                      .leaf
                      11420 [11421]
                      .leaf
                    )
                    11422 [11423]
                    (.node
                      .leaf
                      11424 [11425]
                      (.node
                        .leaf
                        11426 [11427]
                        .leaf
                      )
                    )
                  )
                  11428 [11429]
                  (.node
                    (.node
                      .leaf
                      11430 [11431]
                      (.node
                        .leaf
                        11432 [11433]
                        .leaf
                      )
                    )
                    11434 [11435]
                    (.node
                      .leaf
                      11436 [11437]
                      (.node
                        .leaf
                        11438 [11439]
                        .leaf
                      )
                    )
                  )
                )
                11440 [11441]
                (.node
                  (.node
                    (.node
                      .leaf
                      11442 [11443]
                      .leaf
                    )
                    11444 [11445]
                    (.node
                      .leaf
                      11446 [11447]
                      (.node
                        .leaf
                        11448 [11449]
                        .leaf
                      )
                    )
                  )
                  11450 [11451]
                  (.node
                    (.node
                      .leaf
                      11452 [11453]
                      (.node
                        .leaf
                        11454 [11455]
                        .leaf
                      )
                    )
                    11456 [11457]
                    (.node
                      .leaf
                      11458 [11459]
                      (.node
                        .leaf
                        11460 [11461]
                        .leaf
                      )
                    )
                  )
                )
              )
              11462 [11463]
              (.node
                (.node
                  (.node
                    (.node
                      .leaf
                      11464 [11465]
                      .leaf
                    )
                    11466 [11467]
                    (.node
                      .leaf
                      11468 [11469]
                      (.node
                        .leaf
                        11470 [11471]
                        .leaf
                      )
                    )
                  )
                  11472 [11473]
                  (.node
                    (.node
                      .leaf
                      11474 [11475]
                      (.node
                        .leaf
                        11476 [11477]
                        .leaf
                      )
                    )
                    11478 [11479]
                    (.node
                      .leaf
                      11480 [11481]
                      (.node
                        .leaf
                        11482 [11483]
                        .leaf
                      )
                    )
                  )
                )
                11484 [11485]
                (.node
                  (.node
                    (.node
                      .leaf
                      11486 [11487]
                      (.node
                        .leaf
                        11488 [11489]
                        .leaf
                      )
                    )
                    11490 [11491]
                    (.node
                      .leaf
                      11499 [11500]
                      (.node
                        .leaf
                        11501 [11502]
                        .leaf
                      )
                    )
                  )
                  11506 [11507]
                  (.node
                    (.node
                      .leaf
                      42560 [42561]
                      (.node
                        .leaf
                        42562 [42563]
                        .leaf
                      )
                    )
                    42564 [42565]
                    (.node
                      .leaf
                      42566 [42567]
                      (.node
                        .leaf
                        42568 [42569]
                        .leaf
                      )
                    )
                  )
                )
              )
            )
            42570 [42571]
            (.node
              (.node
                (.node
                  (.node
                    (.node
                      .leaf
                      42572 [42573]
                      .leaf
                    )
                    42574 [42575]
                    (.node
                      .leaf
                      42576 [42577]
                      (.node
                        .leaf
                        42578 [42579]
                        .leaf
                      )
                    )
                  )
                  42580 [42581]
                  (.node
                    (.node
                      .leaf
                      42582 [42583]
                      (.node
                        .leaf
                        42584 [42585]
                        .leaf
                      )
                    )
                    42586 [42587]
                    (.node
                      .leaf
                      42588 [42589]
                      (.node
                        .leaf
                        42590 [42591]
                        .leaf
                      )
                    )
                  )
                )
                42592 [42593]
                (.node
                  (.node
                    (.node
                      .leaf
                      42594 [42595]
                      .leaf
                    )
                    42596 [42597]
                    (.node
                      .leaf
                      42598 [42599]
                      (.node
                        .leaf
                        42600 [42601]
                        .leaf
                      )
                    )
                  )
                  42602 [42603]
                  (.node
                    (.node
                      .leaf
                      42604 [42605]
                      (.node
                        .leaf
                        42624 [42625]
                        .leaf
                      )
                    )
                    42626 [42627]
                    (.node
                      .leaf
                      42628 [42629]
                      (.node
                        .leaf
                        42630 [42631]
                        .leaf
                      )
                    )
                  )
                )
              )
              42632 [42633]
              (.node
                (.node
                  (.node
                    (.node
                      .leaf
                      42634 [42635]
                      .leaf
                    )
                    42636 [42637]
                    (.node
                      .leaf
                      42638 [42639]
                      (.node
                        .leaf
                        42640 [42641]
                        .leaf
                      )
                    )
                  )
                  42642 [42643]
                  (.node
                    (.node
                      .leaf
                      42644 [42645]
                      (.node
                        .leaf
                        42646 [42647]
                        .leaf
                      )
                    )
                    42648 [42649]
                    (.node
                      .leaf
                      42650 [42651]
                      (.node
                        .leaf
                        42786 [42787]
                        .leaf
                      )
                    )
                  )
                )
                42788 [42789]
                (.node
                  (.node
                    (.node
                      .leaf
                      42790 [42791]
                      (.node
                        .leaf
                        42792 [42793]
                        .leaf
                      )
                    )
                    42794 [42795]
                    (.node
                      .leaf
                      42796 [42797]
                      (.node
                        .leaf
                        42798 [42799]
                        .leaf
                      )
                    )
                  )
                  42802 [42803]
                  (.node
                    (.node
                      .leaf
                      42804 [42805]
                      (.node
                        .leaf
                        42806 [42807]
                        .leaf
                      )
                    )
                    42808 [42809]
                    (.node
                      .leaf
                      42810 [42811]
                      (.node
                        .leaf
                        42812 [42813]
                        .leaf
                      )
                    )
                  )
                )
              )
            )
          )
        )
      )
      42814 [42815]
      (.node
        (.node
          (.node
            (.node
              (.node
                (.node
                  (.node
                    (.node
                      .leaf
                      42816 [42817]
                      .leaf
                    )
                    42818 [42819]
                    (.node
                      .leaf
                      42820 [42821]
                      (.node
                        .leaf
                        42822 [42823]
                        .leaf
                      )
                    )
                  )
                  42824 [42825]
                  (.node
                    (.node
                      .leaf
                      42826 [42827]
                      (.node
                        .leaf
                        42828 [42829]
                        .leaf
                      )
                    )
                    42830 [42831]
                    (.node
                      .leaf
                      42832 [42833]
                      (.node
                        .leaf
                        42834 [42835]
                        .leaf
                      )
                    )
                  )
                )
                42836 [42837]
                (.node
                  (.node
                    (.node
                      .leaf
                      42838 [42839]
                      .leaf
                    )
                    42840 [42841]
                    (.node
                      .leaf
                      42842 [42843]
                      (.node
                        .leaf
                        42844 [42845]
                        .leaf
                      )
                    )
                  )
                  42846 [42847]
                  (.node
                    (.node
                      .leaf
                      42848 [42849]
                      (.node
                        .leaf
                        42850 [42851]
                        .leaf
                      )
                    )
                    42852 [42853]
                    (.node
                      .leaf
                      42854 [42855]
                      (.node
                        .leaf
                        42856 [42857]
                        .leaf
                      )
                    )
                  )
                )
              )
              42858 [42859]
              (.node
                (.node
                  (.node
                    (.node
                      .leaf
                      42860 [42861]
                      .leaf
                    )
                    42862 [42863]
                    (.node
                      .leaf
                      42873 [42874]
                      (.node
                        .leaf
                        42875 [42876]
                        .leaf
                      )
                    )
                  )
                  42877 [7545]
                  (.node
                    (.node
                      .leaf
                      42878 [42879]
                      (.node
                        .leaf
                        42880 [42881]
                        .leaf
                      )
                    )
                    42882 [42883]
                    (.node
                      .leaf
                      42884 [42885]
                      (.node
                        .leaf
                        42886 [42887]
                        .leaf
                      )
                    )
                  )
                )
                42891 [42892]
                (.node
                  (.node
                    (.node
                      .leaf
                      42893 [613]
                      .leaf
                    )
                    42896 [42897]
                    (.node
                      .leaf
                      42898 [42899]
                      (.node
                        .leaf
                        42902 [42903]
                        .leaf
                      )
                    )
                  )
                  42904 [42905]
                  (.node
                    (.node
                      .leaf
                      42906 [42907]
                      (.node
                        .leaf
                        42908 [42909]
                        .leaf
                      )
                    )
                    42910 [42911]
                    (.node
                      .leaf
                      42912 [42913]
                      (.node
                        .leaf
                        42914 [42915]
                        .leaf
                      )
                    )
                  )
                )
              )
            )
            42916 [42917]
            (.node
              (.node
                (.node
                  (.node
                    (.node
                      .leaf
                      42918 [42919]
                      .leaf
                    )
                    42920 [42921]
                    (.node
                      .leaf
                      42922 [614]
                      (.node
                        .leaf
                        42923 [604]
                        .leaf
                      )
                    )
                  )
                  42924 [609]
                  (.node
                    (.node
                      .leaf
                      42925 [620]
                      (.node
                        .leaf
                        42926 [618]
                        .leaf
                      )
                    )
                    42928 [670]
                    (.node
                      .leaf
                      42929 [647]
                      (.node
                        .leaf
                        42930 [669]
                        .leaf
                      )
                    )
                  )
                )
                42931 [43859]
                (.node
                  (.node
                    (.node
                      .leaf
                      42932 [42933]
                      .leaf
                    )
                    42934 [42935]
                    (.node
                      .leaf
                      42936 [42937]
                      (.node
                        .leaf
                        42938 [42939]
                        .leaf
                      )
                    )
                  )
                  42940 [42941]
                  (.node
                    (.node
                      .leaf
                      42942 [42943]
                      (.node
                        .leaf
                        42944 [42945]
                        .leaf
                      )
                    )
                    42946 [42947]
                    (.node
                      .leaf
                      42948 [42900]
                      (.node
                        .leaf
                        42949 [642]
                        .leaf
                      )
                    )
                  )
                )
              )
              42950 [7566]
              (.node
                (.node
                  (.node
                    (.node
                      .leaf
                      42951 [42952]
                      .leaf
                    )
                    42953 [42954]
                    (.node
                      .leaf
                      42960 [42961]
                      (.node
                        .leaf
                        42966 [42967]
                        .leaf
                      )
                    )
                  )
                  42968 [42969]
                  (.node
                    (.node
                      .leaf
                      42997 [42998]
                      (.node
                        .leaf
                        65313 [65345]
                        .leaf
                      )
                    )
                    65314 [65346]
                    (.node
                      .leaf
                      65315 [65347]
                      (.node
                        .leaf
                        65316 [65348]
                        .leaf
                      )
                    )
                  )
                )
                65317 [65349]
                (.node
                  (.node
                    (.node
                      .leaf
                      65318 [65350]
                      (.node
                        .leaf
                        65319 [65351]
                        .leaf
                      )
                    )
                    65320 [65352]
                    (.node
                      .leaf
                      65321 [65353]
                      (.node
                        .leaf
                        65322 [65354]
                        .leaf
                      )
                    )
                  )
                  65323 [65355]
                  (.node
                    (.node
                      .leaf
                      65324 [65356]
                      (.node
                        .leaf
                        65325 [65357]
                        .leaf
                      )
                    )
                    65326 [65358]
                    (.node
                      .leaf
                      65327 [65359]
                      (.node
                        .leaf
                        65328 [65360]
                        .leaf
                      )
                    )
                  )
                )
              )
            )
          )
          65329 [65361]
          (.node
            (.node
              (.node
                (.node
                  (.node
                    (.node
                      .leaf
                      65330 [65362]
                      .leaf
                    )
                    65331 [65363]
                    (.node
                      .leaf
                      65332 [65364]
                      (.node
                        .leaf
                        65333 [65365]
                        .leaf
                      )
                    )
                  )
                  65334 [65366]
                  (.node
                    (.node
                      .leaf
                      65335 [65367]
                      (.node
                        .leaf
                        65336 [65368]
                        .leaf
                      )
                    )
                    65337 [65369]
                    (.node
                      .leaf
                      65338 [65370]
                      (.node
                        .leaf
                        66560 [66600]
                        .leaf
                      )
                    )
                  )
                )
                66561 [66601]
                (.node
                  (.node
                    (.node
                      .leaf
                      66562 [66602]
                      .leaf
                    )
                    66563 [66603]
                    (.node
                      .leaf
                      66564 [66604]
                      (.node
                        .leaf
                        66565 [66605]
                        .leaf
                      )
                    )
                  )
                  66566 [66606]
                  (.node
                    (.node
                      .leaf
                      66567 [66607]
                      (.node
                        .leaf
                        66568 [66608]
                        .leaf
                      )
                    )
                    66569 [66609]
                    (.node
                      .leaf
                      66570 [66610]
                      (.node
                        .leaf
                        66571 [66611]
                        .leaf
                      )
                    )
                  )
                )
              )
              66572 [66612]
              (.node
                (.node
                  (.node
                    (.node
                      .leaf
                      66573 [66613]
                      .leaf
                    )
                    66574 [66614]
                    (.node
                      .leaf
                      66575 [66615]
                      (.node
                        .leaf
                        66576 [66616]
                        .leaf
                      )
                    )
                  )
                  66577 [66617]
                  (.node
                    (.node
                      .leaf
                      66578 [66618]
                      (.node
                        .leaf
                        66579 [66619]
                        .leaf
                      )
                    )
                    66580 [66620]
                    (.node
                      .leaf
                      66581 [66621]
                      (.node
                        .leaf
                        66582 [66622]
                        .leaf
                      )
                    )
                  )
                )
                66583 [66623]
                (.node
                  (.node
                    (.node
                      .leaf
                      66584 [66624]
                      (.node
                        .leaf
                        66585 [66625]
                        .leaf
                      )
                    )
                    66586 [66626]
                    (.node
                      .leaf
                      66587 [66627]
                      (.node
                        .leaf
                        66588 [66628]
                        .leaf
                      )
                    )
                  )
                  66589 [66629]
                  (.node
                    (.node
                      .leaf
                      66590 [66630]
                      (.node
                        .leaf
                        66591 [66631]
                        .leaf
                      )
                    )
                    66592 [66632]
                    (.node
                      .leaf
                      66593 [66633]
                      (.node
                        .leaf
                        66594 [66634]
                        .leaf
                      )
                    )
                  )
                )
              )
            )
            66595 [66635]
            (.node
              (.node
                (.node
                  (.node
                    (.node
                      .leaf
                      66596 [66636]
                      .leaf
                    )
                    66597 [66637]
                    (.node
                      .leaf
                      66598 [66638]
                      (.node
                        .leaf
                        66599 [66639]
                        .leaf
                      )
                    )
                  )
                  66736 [66776]
                  (.node
                    (.node
                      .leaf
                      66737 [66777]
                      (.node
                        .leaf
                        66738 [66778]
                        .leaf
                      )
                    )
                    66739 [66779]
                    (.node
                      .leaf
                      66740 [66780]
                      (.node
                        .leaf
                        66741 [66781]
                        .leaf
                      )
                    )
                  )
                )
                66742 [66782]
                (.node
                  (.node
                    (.node
                      .leaf
                      66743 [66783]
                      .leaf
                    )
                    66744 [66784]
                    (.node
                      .leaf
                      66745 [66785]
                      (.node
                        .leaf
                        66746 [66786]
                        .leaf
                      )
                    )
                  )
                  66747 [66787]
                  (.node
                    (.node
                      .leaf
                      66748 [66788]
                      (.node
                        .leaf
                        66749 [66789]
                        .leaf
                      )
                    )
                    66750 [66790]
                    (.node
                      .leaf
                      66751 [66791]
                      (.node
                        .leaf
                        66752 [66792]
                        .leaf
                      )
                    )
                  )
                )
              )
              66753 [66793]
              (.node
                (.node
                  (.node
                    (.node
                      .leaf
                      66754 [66794]
                      .leaf
                    )
                    66755 [66795]
                    (.node
                      .leaf
                      66756 [66796]
                      (.node
                        .leaf
                        66757 [66797]
                        .leaf
                      )
                    )
                  )
                  66758 [66798]
                  (.node
                    (.node
                      .leaf
                      66759 [66799]
                      (.node
                        .leaf
                        66760 [66800]
                        .leaf
                      )
                    )
                    66761 [66801]
                    (.node
                      .leaf
                      66762 [66802]
                      (.node
                        .leaf
                        66763 [66803]
                        .leaf
                      )
                    )
                  )
                )
                66764 [66804]
                (.node
                  (.node
                    (.node
                      .leaf
                      66765 [66805]
                      (.node
                        .leaf
                        66766 [66806]
                        .leaf
                      )
                    )
                    66767 [66807]
                    (.node
                      .leaf
                      66768 [66808]
                      (.node
                        .leaf
                        66769 [66809]
                        .leaf
                      )
                    )
                  )
                  66770 [66810]
                  (.node
                    (.node
                      .leaf
                      66771 [66811]
                      (.node
                        .leaf
                        66928 [66967]
                        .leaf
                      )
                    )
                    66929 [66968]
                    (.node
                      .leaf
                      66930 [66969]
                      (.node
                        .leaf
                        66931 [66970]
                        .leaf
                      )
                    )
                  )
                )
              )
            )
          )
        )
        66932 [66971]
        (.node
          (.node
            (.node
              (.node
                (.node
                  (.node
                    (.node
                      .leaf
                      66933 [66972]
                      .leaf
                    )
                    66934 [66973]
                    (.node
                      .leaf
                      66935 [66974]
                      (.node
                        .leaf
                        66936 [66975]
                        .leaf
                      )
                    )
                  )
                  66937 [66976]
                  (.node
                    (.node
                      .leaf
                      66938 [66977]
                      (.node
                        .leaf
                        66940 [66979]
                        .leaf
                      )
                    )
                    66941 [66980]
                    (.node
                      .leaf
                      66942 [66981]
                      (.node
                        .leaf
                        66943 [66982]
                        .leaf
                      )
                    )
                  )
                )
                66944 [66983]
                (.node
                  (.node
                    (.node
                      .leaf
                      66945 [66984]
                      .leaf
                    )
                    66946 [66985]
                    (.node
                      .leaf
                      66947 [66986]
                      (.node
                        .leaf
                        66948 [66987]
                        .leaf
                      )
                    )
                  )
                  66949 [66988]
                  (.node
                    (.node
                      .leaf
                      66950 [66989]
                      (.node
                        .leaf
                        66951 [66990]
                        .leaf
                      )
                    )
                    66952 [66991]
                    (.node
                      .leaf
                      66953 [66992]
                      (.node
                        .leaf
                        66954 [66993]
                        .leaf
                      )
                    )
                  )
                )
              )
              66956 [66995]
              (.node
                (.node
                  (.node
                    (.node
                      .leaf
                      66957 [66996]
                      .leaf
                    )
                    66958 [66997]
                    (.node
                      .leaf
                      66959 [66998]
                      (.node
                        .leaf
                        66960 [66999]
                        .leaf
                      )
                    )
                  )
                  66961 [67000]
                  (.node
                    (.node
                      .leaf
                      66962 [67001]
                      (.node
                        .leaf
                        66964 [67003]
                        .leaf
                      )
                    )
                    66965 [67004]
                    (.node
                      .leaf
                      68736 [68800]
                      (.node
                        .leaf
                        68737 [68801]
                        .leaf
                      )
                    )
                  )
                )
                68738 [68802]
                (.node
                  (.node
                    (.node
                      .leaf
                      68739 [68803]
                      (.node
                        .leaf
                        68740 [68804]
                        .leaf
                      )
                    )
                    68741 [68805]
                    (.node
                      .leaf
                      68742 [68806]
                      (.node
                        .leaf
                        68743 [68807]
                        .leaf
                      )
                    )
                  )
                  68744 [68808]
                  (.node
                    (.node
                      .leaf
                      68745 [68809]
                      (.node
                        .leaf
                        68746 [68810]
                        .leaf
                      )
                    )
                    68747 [68811]
                    (.node
                      .leaf
                      68748 [68812]
                      (.node
                        .leaf
                        68749 [68813]
                        .leaf
                      )
                    )
                  )
                )
              )
            )
            68750 [68814]
            (.node
              (.node
                (.node
                  (.node
                    (.node
                      .leaf
                      68751 [68815]
                      .leaf
                    )
                    68752 [68816]
                    (.node
                      .leaf
                      68753 [68817]
                      (.node
                        .leaf
                        68754 [68818]
                        .leaf
                      )
                    )
                  )
                  68755 [68819]
                  (.node
                    (.node
                      .leaf
                      68756 [68820]
                      (.node
                        .leaf
                        68757 [68821]
                        .leaf
                      )
                    )
                    68758 [68822]
                    (.node
                      .leaf
                      68759 [68823]
                      (.node
                        .leaf
                        68760 [68824]
                        .leaf
                      )
                    )
                  )
                )
                68761 [68825]
                (.node
                  (.node
                    (.node
                      .leaf
                      68762 [68826]
                      .leaf
                    )
                    68763 [68827]
                    (.node
                      .leaf
                      68764 [68828]
                      (.node
                        .leaf
                        68765 [68829]
                        .leaf
                      )
                    )
                  )
                  68766 [68830]
                  (.node
                    (.node
                      .leaf
                      68767 [68831]
                      (.node
                        .leaf
                        68768 [68832]
                        .leaf
                      )
                    )
                    68769 [68833]
                    (.node
                      .leaf
                      68770 [68834]
                      (.node
                        .leaf
                        68771 [68835]
                        .leaf
                      )
                    )
                  )
                )
              )
              68772 [68836]
              (.node
                (.node
                  (.node
                    (.node
                      .leaf
                      68773 [68837]
                      .leaf
                    )
                    68774 [68838]
                    (.node
                      .leaf
                      68775 [68839]
                      (.node
                        .leaf
                        68776 [68840]
                        .leaf
                      )
                    )
                  )
                  68777 [68841]
                  (.node
                    (.node
                      .leaf
                      68778 [68842]
                      (.node
                        .leaf
                        68779 [68843]
                        .leaf
                      )
                    )
                    68780 [68844]
                    (.node
                      .leaf
                      68781 [68845]
                      (.node
                        .leaf
                        68782 [68846]
                        .leaf
                      )
                    )
                  )
                )
                68783 [68847]
                (.node
                  (.node
                    (.node
                      .leaf
                      68784 [68848]
                      (.node
                        .leaf
                        68785 [68849]
                        .leaf
                      )
                    )
                    68786 [68850]
                    (.node
                      .leaf
                      71840 [71872]
                      (.node
                        .leaf
                        71841 [71873]
                        .leaf
                      )
                    )
                  )
                  71842 [71874]
                  (.node
                    (.node
                      .leaf
                      71843 [71875]
                      (.node
                        .leaf
                        71844 [71876]
                        .leaf
                      )
                    )
                    71845 [71877]
                    (.node
                      .leaf
                      71846 [71878]
                      (.node
                        .leaf
                        71847 [71879]
                        .leaf
                      )
                    )
                  )
                )
              )
            )
          )
          71848 [71880]
          (.node
            (.node
              (.node
                (.node
                  (.node
                    (.node
                      .leaf
                      71849 [71881]
                      .leaf
                    )
                    71850 [71882]
                    (.node
                      .leaf
                      71851 [71883]
                      (.node
                        .leaf
                        71852 [71884]
                        .leaf
                      )
                    )
                  )
                  71853 [71885]
                  (.node
                    (.node
                      .leaf
                      71854 [71886]
                      (.node
                        .leaf
                        71855 [71887]
                        .leaf
                      )
                    )
                    71856 [71888]
                    (.node
                      .leaf
                      71857 [71889]
                      (.node
                        .leaf
                        71858 [71890]
                        .leaf
                      )
                    )
                  )
                )
                71859 [71891]
                (.node
                  (.node
                    (.node
                      .leaf
                      71860 [71892]
                      .leaf
                    )
                    71861 [71893]
                    (.node
                      .leaf
                      71862 [71894]
                      (.node
                        .leaf
                        71863 [71895]
                        .leaf
                      )
                    )
                  )
                  71864 [71896]
                  (.node
                    (.node
                      .leaf
                      71865 [71897]
                      (.node
                        .leaf
                        71866 [71898]
                        .leaf
                      )
                    )
                    71867 [71899]
                    (.node
                      .leaf
                      71868 [71900]
                      (.node
                        .leaf
                        71869 [71901]
                        .leaf
                      )
                    )
                  )
                )
              )
              71870 [71902]
              (.node
                (.node
                  (.node
                    (.node
                      .leaf
                      71871 [71903]
                      .leaf
                    )
                    93760 [93792]
                    (.node
                      .leaf
                      93761 [93793]
                      (.node
                        .leaf
                        93762 [93794]
                        .leaf
                      )
                    )
                  )
                  93763 [93795]
                  (.node
                    (.node
                      .leaf
                      93764 [93796]
                      (.node
                        .leaf
                        93765 [93797]
                        .leaf
                      )
                    )
                    93766 [93798]
                    (.node
                      .leaf
                      93767 [93799]
                      (.node
                        .leaf
                        93768 [93800]
                        .leaf
                      )
                    )
                  )
                )
                93769 [93801]
                (.node
                  (.node
                    (.node
                      .leaf
                      93770 [93802]
                      (.node
                        .leaf
                        93771 [93803]
                        .leaf
                      )
                    )
                    93772 [93804]
                    (.node
                      .leaf
                      93773 [93805]
                      (.node
                        .leaf
                        93774 [93806]
                        .leaf
                      )
                    )
                  )
                  93775 [93807]
                  (.node
                    (.node
                      .leaf
                      93776 [93808]
                      (.node
                        .leaf
                        93777 [93809]
                        .leaf
                      )
                    )
                    93778 [93810]
                    (.node
                      .leaf
                      93779 [93811]
                      (.node
                        .leaf
                        93780 [93812]
                        .leaf
                      )
                    )
                  )
                )
              )
            )
            93781 [93813]
            (.node
              (.node
                (.node
                  (.node
                    (.node
                      .leaf
                      93782 [93814]
                      .leaf
                    )
                    93783 [93815]
                    (.node
                      .leaf
                      93784 [93816]
                      (.node
                        .leaf
                        93785 [93817]
                        .leaf
                      )
                    )
                  )
                  93786 [93818]
                  (.node
                    (.node
                      .leaf
                      93787 [93819]
                      (.node
                        .leaf
                        93788 [93820]
                        .leaf
                      )
                    )
                    93789 [93821]
                    (.node
                      .leaf
                      93790 [93822]
                      (.node
                        .leaf
                        93791 [93823]
                        .leaf
                      )
                    )
                  )
                )
                125184 [125218]
                (.node
                  (.node
                    (.node
                      .leaf
                      125185 [125219]
                      .leaf
                    )
                    125186 [125220]
                    (.node
                      .leaf
                      125187 [125221]
                      (.node
                        .leaf
                        125188 [125222]
                        .leaf
                      )
                    )
                  )
                  125189 [125223]
                  (.node
                    (.node
                      .leaf
                      125190 [125224]
                      (.node
                        .leaf
                        125191 [125225]
                        .leaf
                      )
                    )
                    125192 [125226]
                    (.node
                      .leaf
                      125193 [125227]
                      (.node
                        .leaf
                        125194 [125228]
                        .leaf
                      )
                    )
                  )
                )
              )
              125195 [125229]
              (.node
                (.node
                  (.node
                    (.node
                      .leaf
                      125196 [125230]
                      .leaf
                    )
                    125197 [125231]
                    (.node
                      .leaf
                      125198 [125232]
                      (.node
                        .leaf
                        125199 [125233]
                        .leaf
                      )
                    )
                  )
                  125200 [125234]
                  (.node
                    (.node
                      .leaf
                      125201 [125235]
                      (.node
                        .leaf
                        125202 [125236]
                        .leaf
                      )
                    )
                    125203 [125237]
                    (.node
                      .leaf
                      125204 [125238]
                      (.node
                        .leaf
                        125205 [125239]
                        .leaf
                      )
                    )
                  )
                )
                125206 [125240]
                (.node
                  (.node
                    (.node
                      .leaf
                      125207 [125241]
                      (.node
                        .leaf
                        125208 [125242]
                        .leaf
                      )
                    )
                    125209 [125243]
                    (.node
                      .leaf
                      125210 [125244]
                      (.node
                        .leaf
                        125211 [125245]
                        .leaf
                      )
                    )
                  )
                  125212 [125246]
                  (.node
                    (.node
                      .leaf
                      125213 [125247]
                      (.node
                        .leaf
                        125214 [125248]
                        .leaf
                      )
                    )
                    125215 [125249]
                    (.node
                      .leaf
                      125216 [125250]
                      (.node
                        .leaf
                        125217 [125251]
                        .leaf
                      )
                    )
                  )
                )
              )
            )
          )
        )
      )
    )
  )

/-- Generated from Unicode 14.0.0 data: the Cased property (the derived
Lowercase and Uppercase properties together with general category Lt), as
sorted disjoint ranges. -/
def casedSet : RSet :=
  (.node
    (.node
      (.node
        (.node
          (.node
            (.node
              (.node
                .leaf
                65 90
                .leaf
              )
              97 122
              (.node
                .leaf
                170 170
                .leaf
              )
            )
            181 181
            (.node
              (.node
                .leaf
                186 186
                .leaf
              )
              192 214
              (.node
                .leaf
                216 246
                (.node
                  .leaf
                  248 442
                  .leaf
                )
              )
            )
          )
          444 447
          (.node
            (.node
              (.node
                .leaf
                452 659
                .leaf
              )
              661 696
              (.node
                .leaf
                704 705
                (.node
                  .leaf
                  736 740
                  .leaf
                )
              )
            )
            837 837
            (.node
              (.node
                .leaf
                880 883
                .leaf
              )
              886 887
              (.node
                .leaf
                890 893
                (.node
                  .leaf
                  895 895
                  .leaf
                )
              )
            )
          )
        )
        902 902
        (.node
          (.node
            (.node
              (.node
                .leaf
                904 906
                .leaf
              )
              908 908
              (.node
                .leaf
                910 929
                (.node
                  .leaf
                  931 1013
                  .leaf
                )
              )
            )
            1015 1153
            (.node
              (.node
                .leaf
                1162 1327
                .leaf
              )
              1329 1366
              (.node
                .leaf
                1376 1416
                (.node
                  .leaf
                  4256 4293
                  .leaf
                )
              )
            )
          )
          4295 4295
          (.node
            (.node
              (.node
                .leaf
                4301 4301
                .leaf
              )
              4304 4346
              (.node
                .leaf
                4349 4351
                (.node
                  .leaf
                  5024 5109
                  .leaf
                )
              )
            )
            5112 5117
            (.node
              (.node
                .leaf
                7296 7304
                .leaf
              )
              7312 7354
              (.node
                .leaf
                7357 7359
                (.node
                  .leaf
                  7424 7615
                  .leaf
                )
              )
            )
          )
        )
      )
      7680 7957
      (.node
        (.node
          (.node
            (.node
              (.node
                .leaf
                7960 7965
                .leaf
              )
              7968 8005
              (.node
                .leaf
                8008 8013
                .leaf
              )
            )
            8016 8023
            (.node
              (.node
                .leaf
                8025 8025
                .leaf
              )
              8027 8027
              (.node
                .leaf
                8029 8029
                (.node
                  .leaf
                  8031 8061
                  .leaf
                )
              )
            )
          )
          8064 8116
          (.node
            (.node
              (.node
                .leaf
                8118 8124
                .leaf
              )
              8126 8126
              (.node
                .leaf
                8130 8132
                (.node
                  .leaf
                  8134 8140
                  .leaf
                )
              )
            )
            8144 8147
            (.node
              (.node
                .leaf
                8150 8155
                .leaf
              )
              8160 8172
              (.node
                .leaf
                8178 8180
                (.node
                  .leaf
                  8182 8188
                  .leaf
                )
              )
            )
          )
        )
        8305 8305
        (.node
          (.node
            (.node
              (.node
                .leaf
                8319 8319
                .leaf
              )
              8336 8348
              (.node
                .leaf
                8450 8450
                (.node
                  .leaf
                  8455 8455
                  .leaf
                )
              )
            )
            8458 8467
            (.node
              (.node
                .leaf
                8469 8469
                .leaf
              )
              8473 8477
              (.node
                .leaf
                8484 8484
                (.node
                  .leaf
                  8486 8486
                  .leaf
                )
              )
            )
          )
          8488 8488
          (.node
            (.node
              (.node
                .leaf
                8490 8493
                .leaf
              )
              8495 8500
              (.node
                .leaf
                8505 8505
                (.node
                  .leaf
                  8508 8511
                  .leaf
                )
              )
            )
            8517 8521
            (.node
              (.node
                .leaf
                8526 8526
                .leaf
              )
              8544 8575
              (.node
                .leaf
                8579 8580
                (.node
                  .leaf
                  9398 9449
                  .leaf
                )
              )
            )
          )
        )
      )
    )
    11264 11492
    (.node
      (.node
        (.node
          (.node
            (.node
              (.node
                .leaf
                11499 11502
                .leaf
              )
              11506 11507
              (.node
                .leaf
                11520 11557
                .leaf
              )
            )
            11559 11559
            (.node
              (.node
                .leaf
                11565 11565
                .leaf
              )
              42560 42605
              (.node
                .leaf
                42624 42653
                (.node
                  .leaf
                  42786 42887
                  .leaf
                )
              )
            )
          )
          42891 42894
          (.node
            (.node
              (.node
                .leaf
                42896 42954
                .leaf
              )
              42960 42961
              (.node
                .leaf
                42963 42963
                (.node
                  .leaf
                  42965 42969
                  .leaf
                )
              )
            )
            42997 42998
            (.node
              (.node
                .leaf
                43000 43002
                .leaf
              )
              43824 43866
              (.node
                .leaf
                43868 43880
                (.node
                  .leaf
                  43888 43967
                  .leaf
                )
              )
            )
          )
        )
        64256 64262
        (.node
          (.node
            (.node
              (.node
                .leaf
                64275 64279
                .leaf
              )
              65313 65338
              (.node
                .leaf
                65345 65370
                (.node
                  .leaf
                  66560 66639
                  .leaf
                )
              )
            )
            66736 66771
            (.node
              (.node
                .leaf
                66776 66811
                .leaf
              )
              66928 66938
              (.node
                .leaf
                66940 66954
                (.node
                  .leaf
                  66956 66962
                  .leaf
                )
              )
            )
          )
          66964 66965
          (.node
            (.node
              (.node
                .leaf
                66967 66977
                .leaf
              )
              66979 66993
              (.node
                .leaf
                66995 67001
                (.node
                  .leaf
                  67003 67004
                  .leaf
                )
              )
            )
            67456 67456
            (.node
              (.node
                .leaf
                67459 67461
                .leaf
              )
              67463 67504
              (.node
                .leaf
                67506 67514
                (.node
                  .leaf
                  68736 68786
                  .leaf
                )
              )
            )
          )
        )
      )
      68800 68850
      (.node
        (.node
          (.node
            (.node
              (.node
                .leaf
                71840 71903
                .leaf
              )
              93760 93823
              (.node
                .leaf
                119808 119892
                .leaf
              )
            )
            119894 119964
            (.node
              (.node
                .leaf
                119966 119967
                .leaf
              )
              119970 119970
              (.node
                .leaf
                119973 119974
                (.node
                  .leaf
                  119977 119980
                  .leaf
                )
              )
            )
          )
          119982 119993
          (.node
            (.node
              (.node
                .leaf
                119995 119995
                .leaf
              )
              119997 120003
              (.node
                .leaf
                120005 120069
                (.node
                  .leaf
                  120071 120074
                  .leaf
                )
              )
            )
            120077 120084
            (.node
              (.node
                .leaf
                120086 120092
                .leaf
              )
              120094 120121
              (.node
                .leaf
                120123 120126
                (.node
                  .leaf
                  120128 120132
                  .leaf
                )
              )
            )
          )
        )
        120134 120134
        (.node
          (.node
            (.node
              (.node
                .leaf
                120138 120144
                .leaf
              )
              120146 120485
              (.node
                .leaf
                120488 120512
                (.node
                  .leaf
                  120514 120538
                  .leaf
                )
              )
            )
            120540 120570
            (.node
              (.node
                .leaf
                120572 120596
                .leaf
              )
              120598 120628
              (.node
                .leaf
                120630 120654
                (.node
                  .leaf
                  120656 120686
                  .leaf
                )
              )
            )
          )
          120688 120712
          (.node
            (.node
              (.node
                .leaf
                120714 120744
                .leaf
              )
              120746 120770
              (.node
                .leaf
                120772 120779
                (.node
                  .leaf
                  122624 122633
                  .leaf
                )
              )
            )
            122635 122654
            (.node
              (.node
                .leaf
                125184 125251
                .leaf
              )
              127280 127305
              (.node
                .leaf
                127312 127337
                (.node
                  .leaf
                  127344 127369
                  .leaf
                )
              )
            )
          )
        )
      )
    )
  )

/-- Generated from Unicode 14.0.0 data: the Case_Ignorable property
(general categories Mn, Me, Cf, Lm and Sk together with the Word_Break
MidLetter, MidNumLet and Single_Quote characters), as sorted disjoint
ranges. -/
def caseIgnorableSet : RSet :=
  (.node
    (.node
      (.node
        (.node
          (.node
            (.node
              (.node
                (.node
                  .leaf
                  39 39
                  (.node
                    .leaf
                    46 46
                    .leaf
                  )
                )
                58 58
                (.node
                  .leaf
                  94 94
                  (.node
                    .leaf
                    96 96
                    .leaf
                  )
                )
              )
              168 168
              (.node
                (.node
                  .leaf
                  173 173
                  (.node
                    .leaf
                    175 175
                    .leaf
                  )
                )
                180 180
                (.node
                  (.node
                    .leaf
                    183 184
                    .leaf
                  )
                  688 879
                  (.node
                    .leaf
                    884 885
                    .leaf
                  )
                )
              )
            )
            890 890
            (.node
              (.node
                (.node
                  .leaf
                  900 901
                  (.node
                    .leaf
                    903 903
                    .leaf
                  )
                )
                1155 1161
                (.node
                  .leaf
                  1369 1369
                  (.node
                    .leaf
                    1375 1375
                    .leaf
                  )
                )
              )
              1425 1469
              (.node
                (.node
                  .leaf
                  1471 1471
                  (.node
                    .leaf
                    1473 1474
                    .leaf
                  )
                )
                1476 1477
                (.node
                  (.node
                    .leaf
                    1479 1479
                    .leaf
                  )
                  1524 1524
                  (.node
                    .leaf
                    1536 1541
                    .leaf
                  )
                )
              )
            )
          )
          1552 1562
          (.node
            (.node
              (.node
                (.node
                  .leaf
                  1564 1564
                  (.node
                    .leaf
                    1600 1600
                    .leaf
                  )
                )
                1611 1631
                (.node
                  .leaf
                  1648 1648
                  (.node
                    .leaf
                    1750 1757
                    .leaf
                  )
                )
              )
              1759 1768
              (.node
                (.node
                  .leaf
                  1770 1773
                  (.node
                    .leaf
                    1807 1807
                    .leaf
                  )
                )
                1809 1809
                (.node
                  (.node
                    .leaf
                    1840 1866
                    .leaf
                  )
                  1958 1968
                  (.node
                    .leaf
                    2027 2037
                    .leaf
                  )
                )
              )
            )
            2042 2042
            (.node
              (.node
                (.node
                  .leaf
                  2045 2045
                  (.node
                    .leaf
                    2070 2093
                    .leaf
                  )
                )
                2137 2139
                (.node
                  (.node
                    .leaf
                    2184 2184
                    .leaf
                  )
                  2192 2193
                  (.node
                    .leaf
                    2200 2207
                    .leaf
                  )
                )
              )
              2249 2306
              (.node
                (.node
                  .leaf
                  2362 2362
                  (.node
                    .leaf
                    2364 2364
                    .leaf
                  )
                )
                2369 2376
                (.node
                  (.node
                    .leaf
                    2381 2381
                    .leaf
                  )
                  2385 2391
                  (.node
                    .leaf
                    2402 2403
                    .leaf
                  )
                )
              )
            )
          )
        )
        2417 2417
        (.node
          (.node
            (.node
              (.node
                (.node
                  .leaf
                  2433 2433
                  (.node
                    .leaf
                    2492 2492
                    .leaf
                  )
                )
                2497 2500
                (.node
                  .leaf
                  2509 2509
                  (.node
                    .leaf
                    2530 2531
                    .leaf
                  )
                )
              )
              2558 2558
              (.node
                (.node
                  .leaf
                  2561 2562
                  (.node
                    .leaf
                    2620 2620
                    .leaf
                  )
                )
                2625 2626
                (.node
                  (.node
                    .leaf
                    2631 2632
                    .leaf
                  )
                  2635 2637
                  (.node
                    .leaf
                    2641 2641
                    .leaf
                  )
                )
              )
            )
            2672 2673
            (.node
              (.node
                (.node
                  .leaf
                  2677 2677
                  (.node
                    .leaf
                    2689 2690
                    .leaf
                  )
                )
                2748 2748
                (.node
                  (.node
                    .leaf
                    2753 2757
                    .leaf
                  )
                  2759 2760
                  (.node
                    .leaf
                    2765 2765
                    .leaf
                  )
                )
              )
              2786 2787
              (.node
                (.node
                  .leaf
                  2810 2815
                  (.node
                    .leaf
                    2817 2817
                    .leaf
                  )
                )
                2876 2876
                (.node
                  (.node
                    .leaf
                    2879 2879
                    .leaf
                  )
                  2881 2884
                  (.node
                    .leaf
                    2893 2893
                    .leaf
                  )
                )
              )
            )
          )
          2901 2902
          (.node
            (.node
              (.node
                (.node
                  .leaf
                  2914 2915
                  (.node
                    .leaf
                    2946 2946
                    .leaf
                  )
                )
                3008 3008
                (.node
                  .leaf
                  3021 3021
                  (.node
                    .leaf
                    3072 3072
                    .leaf
                  )
                )
              )
              3076 3076
              (.node
                (.node
                  .leaf
                  3132 3132
                  (.node
                    .leaf
                    3134 3136
                    .leaf
                  )
                )
                3142 3144
                (.node
                  (.node
                    .leaf
                    3146 3149
                    .leaf
                  )
                  3157 3158
                  (.node
                    .leaf
                    3170 3171
                    .leaf
                  )
                )
              )
            )
            3201 3201
            (.node
              (.node
                (.node
                  .leaf
                  3260 3260
                  (.node
                    .leaf
                    3263 3263
                    .leaf
                  )
                )
                3270 3270
                (.node
                  (.node
                    .leaf
                    3276 3277
                    .leaf
                  )
                  3298 3299
                  (.node
                    .leaf
                    3328 3329
                    .leaf
                  )
                )
              )
              3387 3388
              (.node
                (.node
                  .leaf
                  3393 3396
                  (.node
                    .leaf
                    3405 3405
                    .leaf
                  )
                )
                3426 3427
                (.node
                  (.node
                    .leaf
                    3457 3457
                    .leaf
                  )
                  3530 3530
                  (.node
                    .leaf
                    3538 3540
                    .leaf
                  )
                )
              )
            )
          )
        )
      )
      3542 3542
      (.node
        (.node
          (.node
            (.node
              (.node
                (.node
                  .leaf
                  3633 3633
                  (.node
                    .leaf
                    3636 3642
                    .leaf
                  )
                )
                3654 3662
                (.node
                  .leaf
                  3761 3761
                  (.node
                    .leaf
                    3764 3772
                    .leaf
                  )
                )
              )
              3782 3782
              (.node
                (.node
                  .leaf
                  3784 3789
                  (.node
                    .leaf
                    3864 3865
                    .leaf
                  )
                )
                3893 3893
                (.node
                  (.node
                    .leaf
                    3895 3895
                    .leaf
                  )
                  3897 3897
                  (.node
                    .leaf
                    3953 3966
                    .leaf
                  )
                )
              )
            )
            3968 3972
            (.node
              (.node
                (.node
                  .leaf
                  3974 3975
                  (.node
                    .leaf
                    3981 3991
                    .leaf
                  )
                )
                3993 4028
                (.node
                  .leaf
                  4038 4038
                  (.node
                    .leaf
                    4141 4144
                    .leaf
                  )
                )
              )
              4146 4151
              (.node
                (.node
                  .leaf
                  4153 4154
                  (.node
                    .leaf
                    4157 4158
                    .leaf
                  )
                )
                4184 4185
                (.node
                  (.node
                    .leaf
                    4190 4192
                    .leaf
                  )
                  4209 4212
                  (.node
                    .leaf
                    4226 4226
                    .leaf
                  )
                )
              )
            )
          )
          4229 4230
          (.node
            (.node
              (.node
                (.node
                  .leaf
                  4237 4237
                  (.node
                    .leaf
                    4253 4253
                    .leaf
                  )
                )
                4348 4348
                (.node
                  .leaf
                  4957 4959
                  (.node
                    .leaf
                    5906 5908
                    .leaf
                  )
                )
              )
              5938 5939
              (.node
                (.node
                  .leaf
                  5970 5971
                  (.node
                    .leaf
                    6002 6003
                    .leaf
                  )
                )
                6068 6069
                (.node
                  (.node
                    .leaf
                    6071 6077
                    .leaf
                  )
                  6086 6086
                  (.node
                    .leaf
                    6089 6099
                    .leaf
                  )
                )
              )
            )
            6103 6103
            (.node
              (.node
                (.node
                  .leaf
                  6109 6109
                  (.node
                    .leaf
                    6155 6159
                    .leaf
                  )
                )
                6211 6211
                (.node
                  (.node
                    .leaf
                    6277 6278
                    .leaf
                  )
                  6313 6313
                  (.node
                    .leaf
                    6432 6434
                    .leaf
                  )
                )
              )
              6439 6440
              (.node
                (.node
                  .leaf
                  6450 6450
                  (.node
                    .leaf
                    6457 6459
                    .leaf
                  )
                )
                6679 6680
                (.node
                  (.node
                    .leaf
                    6683 6683
                    .leaf
                  )
                  6742 6742
                  (.node
                    .leaf
                    6744 6750
                    .leaf
                  )
                )
              )
            )
          )
        )
        6752 6752
        (.node
          (.node
            (.node
              (.node
                (.node
                  .leaf
                  6754 6754
                  (.node
                    .leaf
                    6757 6764
                    .leaf
                  )
                )
                6771 6780
                (.node
                  .leaf
                  6783 6783
                  (.node
                    .leaf
                    6823 6823
                    .leaf
                  )
                )
              )
              6832 6862
              (.node
                (.node
                  .leaf
                  6912 6915
                  (.node
                    .leaf
                    6964 6964
                    .leaf
                  )
                )
                6966 6970
                (.node
                  (.node
                    .leaf
                    6972 6972
                    .leaf
                  )
                  6978 6978
                  (.node
                    .leaf
                    7019 7027
                    .leaf
                  )
                )
              )
            )
            7040 7041
            (.node
              (.node
                (.node
                  .leaf
                  7074 7077
                  (.node
                    .leaf
                    7080 7081
                    .leaf
                  )
                )
                7083 7085
                (.node
                  (.node
                    .leaf
                    7142 7142
                    .leaf
                  )
                  7144 7145
                  (.node
                    .leaf
                    7149 7149
                    .leaf
                  )
                )
              )
              7151 7153
              (.node
                (.node
                  .leaf
                  7212 7219
                  (.node
                    .leaf
                    7222 7223
                    .leaf
                  )
                )
                7288 7293
                (.node
                  (.node
                    .leaf
                    7376 7378
                    .leaf
                  )
                  7380 7392
                  (.node
                    .leaf
                    7394 7400
                    .leaf
                  )
                )
              )
            )
          )
          7405 7405
          (.node
            (.node
              (.node
                (.node
                  .leaf
                  7412 7412
                  (.node
                    .leaf
                    7416 7417
                    .leaf
                  )
                )
                7468 7530
                (.node
                  .leaf
                  7544 7544
                  (.node
                    .leaf
                    7579 7679
                    .leaf
                  )
                )
              )
              8125 8125
              (.node
                (.node
                  .leaf
                  8127 8129
                  (.node
                    .leaf
                    8141 8143
                    .leaf
                  )
                )
                8157 8159
                (.node
                  (.node
                    .leaf
                    8173 8175
                    .leaf
                  )
                  8189 8190
                  (.node
                    .leaf
                    8203 8207
                    .leaf
                  )
                )
              )
            )
            8216 8217
            (.node
              (.node
                (.node
                  .leaf
                  8228 8228
                  (.node
                    .leaf
                    8231 8231
                    .leaf
                  )
                )
                8234 8238
                (.node
                  (.node
                    .leaf
                    8288 8292
                    .leaf
                  )
                  8294 8303
                  (.node
                    .leaf
                    8305 8305
                    .leaf
                  )
                )
              )
              8319 8319
              (.node
                (.node
                  .leaf
                  8336 8348
                  (.node
                    .leaf
                    8400 8432
                    .leaf
                  )
                )
                11388 11389
                (.node
                  (.node
                    .leaf
                    11503 11505
                    .leaf
                  )
                  11631 11631
                  (.node
                    .leaf
                    11647 11647
                    .leaf
                  )
                )
              )
            )
          )
        )
      )
    )
    11744 11775
    (.node
      (.node
        (.node
          (.node
            (.node
              (.node
                (.node
                  .leaf
                  11823 11823
                  (.node
                    .leaf
                    12293 12293
                    .leaf
                  )
                )
                12330 12333
                (.node
                  .leaf
                  12337 12341
                  (.node
                    .leaf
                    12347 12347
                    .leaf
                  )
                )
              )
              12441 12446
              (.node
                (.node
                  .leaf
                  12540 12542
                  (.node
                    .leaf
                    40981 40981
                    .leaf
                  )
                )
                42232 42237
                (.node
                  (.node
                    .leaf
                    42508 42508
                    .leaf
                  )
                  42607 42610
                  (.node
                    .leaf
                    42612 42621
                    .leaf
                  )
                )
              )
            )
            42623 42623
            (.node
              (.node
                (.node
                  .leaf
                  42652 42655
                  (.node
                    .leaf
                    42736 42737
                    .leaf
                  )
                )
                42752 42785
                (.node
                  .leaf
                  42864 42864
                  (.node
                    .leaf
                    42888 42890
                    .leaf
                  )
                )
              )
              42994 42996
              (.node
                (.node
                  .leaf
                  43000 43001
                  (.node
                    .leaf
                    43010 43010
                    .leaf
                  )
                )
                43014 43014
                (.node
                  (.node
                    .leaf
                    43019 43019
                    .leaf
                  )
                  43045 43046
                  (.node
                    .leaf
                    43052 43052
                    .leaf
                  )
                )
              )
            )
          )
          43204 43205
          (.node
            (.node
              (.node
                (.node
                  .leaf
                  43232 43249
                  (.node
                    .leaf
                    43263 43263
                    .leaf
                  )
                )
                43302 43309
                (.node
                  .leaf
                  43335 43345
                  (.node
                    .leaf
                    43392 43394
                    .leaf
                  )
                )
              )
              43443 43443
              (.node
                (.node
                  .leaf
                  43446 43449
                  (.node
                    .leaf
                    43452 43453
                    .leaf
                  )
                )
                43471 43471
                (.node
                  (.node
                    .leaf
                    43493 43494
                    .leaf
                  )
                  43561 43566
                  (.node
                    .leaf
                    43569 43570
                    .leaf
                  )
                )
              )
            )
            43573 43574
            (.node
              (.node
                (.node
                  .leaf
                  43587 43587
                  (.node
                    .leaf
                    43596 43596
                    .leaf
                  )
                )
                43632 43632
                (.node
                  (.node
                    .leaf
                    43644 43644
                    .leaf
                  )
                  43696 43696
                  (.node
                    .leaf
                    43698 43700
                    .leaf
                  )
                )
              )
              43703 43704
              (.node
                (.node
                  .leaf
                  43710 43711
                  (.node
                    .leaf
                    43713 43713
                    .leaf
                  )
                )
                43741 43741
                (.node
                  (.node
                    .leaf
                    43756 43757
                    .leaf
                  )
                  43763 43764
                  (.node
                    .leaf
                    43766 43766
                    .leaf
                  )
                )
              )
            )
          )
        )
        43867 43871
        (.node
          (.node
            (.node
              (.node
                (.node
                  .leaf
                  43881 43883
                  (.node
                    .leaf
                    44005 44005
                    .leaf
                  )
                )
                44008 44008
                (.node
                  .leaf
                  44013 44013
                  (.node
                    .leaf
                    64286 64286
                    .leaf
                  )
                )
              )
              64434 64450
              (.node
                (.node
                  .leaf
                  65024 65039
                  (.node
                    .leaf
                    65043 65043
                    .leaf
                  )
                )
                65056 65071
                (.node
                  (.node
                    .leaf
                    65106 65106
                    .leaf
                  )
                  65109 65109
                  (.node
                    .leaf
                    65279 65279
                    .leaf
                  )
                )
              )
            )
            65287 65287
            (.node
              (.node
                (.node
                  .leaf
                  65294 65294
                  (.node
                    .leaf
                    65306 65306
                    .leaf
                  )
                )
                65342 65342
                (.node
                  (.node
                    .leaf
                    65344 65344
                    .leaf
                  )
                  65392 65392
                  (.node
                    .leaf
                    65438 65439
                    .leaf
                  )
                )
              )
              65507 65507
              (.node
                (.node
                  .leaf
                  65529 65531
                  (.node
                    .leaf
                    66045 66045
                    .leaf
                  )
                )
                66272 66272
                (.node
                  (.node
                    .leaf
                    66422 66426
                    .leaf
                  )
                  67456 67461
                  (.node
                    .leaf
                    67463 67504
                    .leaf
                  )
                )
              )
            )
          )
          67506 67514
          (.node
            (.node
              (.node
                (.node
                  .leaf
                  68097 68099
                  (.node
                    .leaf
                    68101 68102
                    .leaf
                  )
                )
                68108 68111
                (.node
                  .leaf
                  68152 68154
                  (.node
                    .leaf
                    68159 68159
                    .leaf
                  )
                )
              )
              68325 68326
              (.node
                (.node
                  .leaf
                  68900 68903
                  (.node
                    .leaf
                    69291 69292
                    .leaf
                  )
                )
                69446 69456
                (.node
                  (.node
                    .leaf
                    69506 69509
                    .leaf
                  )
                  69633 69633
                  (.node
                    .leaf
                    69688 69702
                    .leaf
                  )
                )
              )
            )
            69744 69744
            (.node
              (.node
                (.node
                  .leaf
                  69747 69748
                  (.node
                    .leaf
                    69759 69761
                    .leaf
                  )
                )
                69811 69814
                (.node
                  (.node
                    .leaf
                    69817 69818
                    .leaf
                  )
                  69821 69821
                  (.node
                    .leaf
                    69826 69826
                    .leaf
                  )
                )
              )
              69837 69837
              (.node
                (.node
                  .leaf
                  69888 69890
                  (.node
                    .leaf
                    69927 69931
                    .leaf
                  )
                )
                69933 69940
                (.node
                  (.node
                    .leaf
                    70003 70003
                    .leaf
                  )
                  70016 70017
                  (.node
                    .leaf
                    70070 70078
                    .leaf
                  )
                )
              )
            )
          )
        )
      )
      70089 70092
      (.node
        (.node
          (.node
            (.node
              (.node
                (.node
                  .leaf
                  70095 70095
                  (.node
                    .leaf
                    70191 70193
                    .leaf
                  )
                )
                70196 70196
                (.node
                  .leaf
                  70198 70199
                  (.node
                    .leaf
                    70206 70206
                    .leaf
                  )
                )
              )
              70367 70367
              (.node
                (.node
                  .leaf
                  70371 70378
                  (.node
                    .leaf
                    70400 70401
                    .leaf
                  )
                )
                70459 70460
                (.node
                  (.node
                    .leaf
                    70464 70464
                    .leaf
                  )
                  70502 70508
                  (.node
                    .leaf
                    70512 70516
                    .leaf
                  )
                )
              )
            )
            70712 70719
            (.node
              (.node
                (.node
                  .leaf
                  70722 70724
                  (.node
                    .leaf
                    70726 70726
                    .leaf
                  )
                )
                70750 70750
                (.node
                  .leaf
                  70835 70840
                  (.node
                    .leaf
                    70842 70842
                    .leaf
                  )
                )
              )
              70847 70848
              (.node
                (.node
                  .leaf
                  70850 70851
                  (.node
                    .leaf
                    71090 71093
                    .leaf
                  )
                )
                71100 71101
                (.node
                  (.node
                    .leaf
                    71103 71104
                    .leaf
                  )
                  71132 71133
                  (.node
                    .leaf
                    71219 71226
                    .leaf
                  )
                )
              )
            )
          )
          71229 71229
          (.node
            (.node
              (.node
                (.node
                  .leaf
                  71231 71232
                  (.node
                    .leaf
                    71339 71339
                    .leaf
                  )
                )
                71341 71341
                (.node
                  .leaf
                  71344 71349
                  (.node
                    .leaf
                    71351 71351
                    .leaf
                  )
                )
              )
              71453 71455
              (.node
                (.node
                  .leaf
                  71458 71461
                  (.node
                    .leaf
                    71463 71467
                    .leaf
                  )
                )
                71727 71735
                (.node
                  (.node
                    .leaf
                    71737 71738
                    .leaf
                  )
                  71995 71996
                  (.node
                    .leaf
                    71998 71998
                    .leaf
                  )
                )
              )
            )
            72003 72003
            (.node
              (.node
                (.node
                  .leaf
                  72148 72151
                  (.node
                    .leaf
                    72154 72155
                    .leaf
                  )
                )
                72160 72160
                (.node
                  (.node
                    .leaf
                    72193 72202
                    .leaf
                  )
                  72243 72248
                  (.node
                    .leaf
                    72251 72254
                    .leaf
                  )
                )
              )
              72263 72263
              (.node
                (.node
                  .leaf
                  72273 72278
                  (.node
                    .leaf
                    72281 72283
                    .leaf
                  )
                )
                72330 72342
                (.node
                  (.node
                    .leaf
                    72344 72345
                    .leaf
                  )
                  72752 72758
                  (.node
                    .leaf
                    72760 72765
                    .leaf
                  )
                )
              )
            )
          )
        )
        72767 72767
        (.node
          (.node
            (.node
              (.node
                (.node
                  .leaf
                  72850 72871
                  (.node
                    .leaf
                    72874 72880
                    .leaf
                  )
                )
                72882 72883
                (.node
                  .leaf
                  72885 72886
                  (.node
                    .leaf
                    73009 73014
                    .leaf
                  )
                )
              )
              73018 73018
              (.node
                (.node
                  .leaf
                  73020 73021
                  (.node
                    .leaf
                    73023 73029
                    .leaf
                  )
                )
                73031 73031
                (.node
                  (.node
                    .leaf
                    73104 73105
                    .leaf
                  )
                  73109 73109
                  (.node
                    .leaf
                    73111 73111
                    .leaf
                  )
                )
              )
            )
            73459 73460
            (.node
              (.node
                (.node
                  .leaf
                  78896 78904
                  (.node
                    .leaf
                    92912 92916
                    .leaf
                  )
                )
                92976 92982
                (.node
                  (.node
                    .leaf
                    92992 92995
                    .leaf
                  )
                  94031 94031
                  (.node
                    .leaf
                    94095 94111
                    .leaf
                  )
                )
              )
              94176 94177
              (.node
                (.node
                  .leaf
                  94179 94180
                  (.node
                    .leaf
                    110576 110579
                    .leaf
                  )
                )
                110581 110587
                (.node
                  (.node
                    .leaf
                    110589 110590
                    .leaf
                  )
                  113821 113822
                  (.node
                    .leaf
                    113824 113827
                    .leaf
                  )
                )
              )
            )
          )
          118528 118573
          (.node
            (.node
              (.node
                (.node
                  .leaf
                  118576 118598
                  (.node
                    .leaf
                    119143 119145
                    .leaf
                  )
                )
                119155 119170
                (.node
                  .leaf
                  119173 119179
                  (.node
                    .leaf
                    119210 119213
                    .leaf
                  )
                )
              )
              119362 119364
              (.node
                (.node
                  .leaf
                  121344 121398
                  (.node
                    .leaf
                    121403 121452
                    .leaf
                  )
                )
                121461 121461
                (.node
                  (.node
                    .leaf
                    121476 121476
                    .leaf
                  )
                  121499 121503
                  (.node
                    .leaf
                    121505 121519
                    .leaf
                  )
                )
              )
            )
            122880 122886
            (.node
              (.node
                (.node
                  .leaf
                  122888 122904
                  (.node
                    .leaf
                    122907 122913
                    .leaf
                  )
                )
                122915 122916
                (.node
                  (.node
                    .leaf
                    122918 122922
                    .leaf
                  )
                  123184 123197
                  (.node
                    .leaf
                    123566 123566
                    .leaf
                  )
                )
              )
              123628 123631
              (.node
                (.node
                  .leaf
                  125136 125142
                  (.node
                    .leaf
                    125252 125259
                    .leaf
                  )
                )
                127995 127999
                (.node
                  (.node
                    .leaf
                    917505 917505
                    .leaf
                  )
                  917536 917631
                  (.node
                    .leaf
                    917760 917999
                    .leaf
                  )
                )
              )
            )
          )
        )
      )
    )
  )

/-- The Unicode Cased property of a code point. -/
def cased (n : Nat) : Bool := casedSet.mem n

/-- The Unicode Case_Ignorable property of a code point. -/
def caseIgnorable (n : Nat) : Bool := caseIgnorableSet.mem n

/-- Walks outward over case-ignorable characters and reports whether the
first other character is cased; the list holds the neighbours of the
current position nearest first. -/
def nextCased : List Char → Bool
  | [] => false
  | c :: rest => if caseIgnorable c.toNat then nextCased rest else cased c.toNat

/-- The Final_Sigma context condition of Unicode Default Case Conversion:
the character is preceded, over case-ignorable characters, by a cased one,
and is not so followed; prev holds the preceding characters nearest
first. -/
def finalSigma (prev next : List Char) : Bool :=
  nextCased prev && !nextCased next

/-- Lowers one character of the input in context: capital sigma U+03A3
becomes final sigma U+03C2 in Final_Sigma position; every other character
is replaced by its table sequence, or kept when the table does not map
it. -/
def lowerAt (prev : List Char) (c : Char) (next : List Char) : List Char :=
  if (c.toNat == 931) && finalSigma prev next then [Char.ofNat 962]
  else
    match lowerTree.find c.toNat with
    | some out => out.map Char.ofNat
    | none => [c]

/-- Lowers the characters of the input left to right, carrying the already
seen characters (nearest first) as context for the Final_Sigma rule; the
context is taken from the original string, as Unicode prescribes. -/
def lowerSeq : List Char → List Char → List Char
  | _, [] => []
  | prev, c :: rest => lowerAt prev c rest ++ lowerSeq (c :: prev) rest

/-- Model of the JavaScript String.prototype.toLocaleLowerCase builtin
under the root/default locale: Unicode Default Case Conversion toLowercase
over the code points of the string, full mappings and Final_Sigma context
rule included. The locale tailorings a host with a Turkish, Azeri or
Lithuanian default locale would add are outside the model. -/
def toLocaleLowerCase (s : String) : String :=
  ⟨lowerSeq [] s.data⟩

/-- Embedding of toLowerCase from
src/library/src/transformations/toLowerCase/toLowerCase.ts: the factory
returns the transformation function that lowercases its string input via
toLocaleLowerCase. -/
def toLowerCase : Unit → String → String :=
  fun _ => fun input => toLocaleLowerCase input

/-- The pipeline transformation built from the factory of
src/library/src/transformations/toLowerCase/toLowerCase.ts, lifted to the
engine value type: it lowercases a string value and leaves any other
value untouched. -/
def toLowerCaseAction : PipelineAction :=
  .transformation fun v =>
    match v with
    | .str s => .str (toLowerCase () s)
    | v => v

/-- Modelled from the spec: the schema node set of the missing core that
the claims exercise; primitives carry an optional custom message and a
pipeline, modifier and union nodes wrap children, the object node owns its
declared entries. -/
inductive Schema where
  | string (message : Option String) (pipe : List PipelineAction)
  | number (message : Option String) (pipe : List PipelineAction)
  | boolean (message : Option String) (pipe : List PipelineAction)
  | optional (inner : Schema)
  | nullable (inner : Schema)
  | union (alternatives : List Schema)
  | object (entries : List (String × Schema)) (message : Option String)
      (pipe : List PipelineAction)

/-- Reads a declared key out of the input object fields, yielding undefined
when the key is absent. -/
def lookupField : List (String × Value) → String → Value
  | [], _ => .undef
  | (k, v) :: rest, key => if k = key then v else lookupField rest key

/-- Prefixes one Issue path with the object key segment of the ancestor. -/
def addKey (k : String) (i : Issue) : Issue :=
  ⟨i.message, .key k :: i.path, i.input, i.expected, i.received⟩

mutual

/-- Modelled from the spec: the parse operation of the missing core.
Primitives check the kind and then run their pipeline; optional and
nullable accept undefined and null immediately and otherwise delegate;
union tries the alternatives in declared order and on full exhaustion
reports one synthetic issue; object parses every declared key, aggregates
the issues of all failing keys with key-prefixed paths in declared order,
and only when all children succeed runs its own pipeline over the
reconstructed object. -/
def parse : Schema → Value → Result
  | .string msg pipe, v =>
      match v with
      | .str s => runPipeline pipe (.str s)
      | v => .failure [mismatchIssue "string" msg v]
  | .number msg pipe, v =>
      match v with
      | .num n => runPipeline pipe (.num n)
      | v => .failure [mismatchIssue "number" msg v]
  | .boolean msg pipe, v =>
      match v with
      | .bool b => runPipeline pipe (.bool b)
      | v => .failure [mismatchIssue "boolean" msg v]
  | .optional inner, v =>
      match v with
      | .undef => .success .undef
      | v => parse inner v
  | .nullable inner, v =>
      match v with
      | .null => .success .null
      | v => parse inner v
  | .union alts, v =>
      match firstSuccess alts v with
      | some o => .success o
      | none => .failure [unionIssue v]
  | .object entries msg pipe, v =>
      match v with
      | .obj fields =>
          match parseEntries entries fields with
          | ([], outs) => runPipeline pipe (.obj outs)
          | (i :: rest, _) => .failure (i :: rest)
      | v => .failure [mismatchIssue "object" msg v]

/-- Modelled from the spec: tries the union alternatives in declared order
and returns the output of the first alternative that succeeds. -/
def firstSuccess : List Schema → Value → Option Value
  | [], _ => none
  | s :: rest, v =>
      match parse s v with
      | .success o => some o
      | .failure _ => firstSuccess rest v

/-- Modelled from the spec: parses every declared key of an object schema
against the looked-up field, collecting the key-prefixed issues of all
failing keys in declared order together with the outputs of the
succeeding keys. -/
def parseEntries :
    List (String × Schema) → List (String × Value) →
      List Issue × List (String × Value)
  | [], _ => ([], [])
  | (k, s) :: rest, fields =>
      let r := parse s (lookupField fields k)
      let (is, outs) := parseEntries rest fields
      match r with
      | .success o => (is, (k, o) :: outs)
      | .failure cis => (cis.map (addKey k) ++ is, outs)

end

/-- The issue list a Result carries, empty on success. -/
def issuesOf : Result → List Issue
  | .success _ => []
  | .failure is => is

theorem toNat_ofNat_of_valid (n : Nat) (h : n.isValidChar) :
    (Char.ofNat n).toNat = n := by
  rw [Char.ofNat, dif_pos h]
  rfl

theorem CMap.forAll_find {f : Nat → List Nat → Bool} :
    ∀ {t : CMap}, t.forAll f = true →
      ∀ n out, t.find n = some out → f n out = true := by
  intro t
  induction t with
  | leaf =>
    intro _ n out hf
    simp [CMap.find] at hf
  | node l k v r ihl ihr =>
    intro h n out hf
    rw [CMap.forAll, Bool.and_eq_true, Bool.and_eq_true] at h
    obtain ⟨⟨hk, hl⟩, hr⟩ := h
    rw [CMap.find] at hf
    split at hf
    · exact ihl hl n out hf
    · split at hf
      · exact ihr hr n out hf
      · cases hf
        have hnk : n = k := by omega
        subst hnk
        exact hk

theorem lowerTree_closed :
    lowerTree.forAll (fun _ out =>
      !out.isEmpty && out.all fun d =>
        (lowerTree.find d).isNone && decide d.isValidChar) = true := by
  decide

theorem lowerTree_sigma : lowerTree.find 931 = some [963] := by
  decide

theorem lowerTree_final_sigma : lowerTree.find 962 = none := by
  decide

theorem lowerSeq_of_stable :
    ∀ (prev rest : List Char), (∀ c ∈ rest, lowerTree.find c.toNat = none) →
      lowerSeq prev rest = rest := by
  intro prev rest
  induction rest generalizing prev with
  | nil => intro _; rfl
  | cons c rest2 ih =>
    intro h
    have hc := h c (List.mem_cons_self _ _)
    have hcond : ¬((c.toNat == 931) && finalSigma prev rest2) = true := by
      intro hb
      rw [Bool.and_eq_true, beq_iff_eq] at hb
      rw [hb.1, lowerTree_sigma] at hc
      cases hc
    show lowerAt prev c rest2 ++ lowerSeq (c :: prev) rest2 = c :: rest2
    rw [lowerAt, if_neg hcond, hc]
    rw [ih (c :: prev) fun d hd => h d (List.mem_cons_of_mem _ hd)]
    rfl

theorem lowerSeq_stable :
    ∀ (prev rest : List Char) (c : Char), c ∈ lowerSeq prev rest →
      lowerTree.find c.toNat = none := by
  intro prev rest
  induction rest generalizing prev with
  | nil =>
    intro c hc
    simp [lowerSeq] at hc
  | cons a rest2 ih =>
    intro c hc
    have hc2 : c ∈ lowerAt prev a rest2 ++ lowerSeq (a :: prev) rest2 := hc
    rcases List.mem_append.1 hc2 with hmem | hmem
    · rw [lowerAt] at hmem
      by_cases hcond : ((a.toNat == 931) && finalSigma prev rest2) = true
      · rw [if_pos hcond] at hmem
        rw [List.mem_singleton] at hmem
        subst hmem
        rw [toNat_ofNat_of_valid 962 (by decide)]
        exact lowerTree_final_sigma
      · rw [if_neg hcond] at hmem
        cases hfind : lowerTree.find a.toNat with
        | some out =>
          rw [hfind] at hmem
          have hmem2 : c ∈ out.map Char.ofNat := hmem
          rw [List.mem_map] at hmem2
          obtain ⟨d, hd, rfl⟩ := hmem2
          have hentry := CMap.forAll_find lowerTree_closed _ _ hfind
          rw [Bool.and_eq_true, List.all_eq_true] at hentry
          have hd2 := hentry.2 d hd
          rw [Bool.and_eq_true] at hd2
          obtain ⟨hnone, hvalid⟩ := hd2
          rw [toNat_ofNat_of_valid d (of_decide_eq_true hvalid)]
          exact Option.isNone_iff_eq_none.1 hnone
        | none =>
          rw [hfind] at hmem
          have hmem2 : c ∈ [a] := hmem
          rw [List.mem_singleton] at hmem2
          subst hmem2
          exact hfind
    · exact ih (a :: prev) c hmem

theorem lowerAt_ne_nil (prev : List Char) (c : Char) (next : List Char) :
    lowerAt prev c next ≠ [] := by
  rw [lowerAt]
  by_cases hcond : ((c.toNat == 931) && finalSigma prev next) = true
  · rw [if_pos hcond]
    simp
  · rw [if_neg hcond]
    cases hfind : lowerTree.find c.toNat with
    | some out =>
      show out.map Char.ofNat ≠ []
      have hentry := CMap.forAll_find lowerTree_closed _ _ hfind
      rw [Bool.and_eq_true] at hentry
      intro hcontra
      rw [List.map_eq_nil_iff] at hcontra
      subst hcontra
      simp [List.isEmpty] at hentry
    | none =>
      show [c] ≠ []
      simp

theorem toLocaleLowerCase_idem (s : String) :
    toLocaleLowerCase (toLocaleLowerCase s) = toLocaleLowerCase s :=
  congrArg String.mk
    (lowerSeq_of_stable [] (lowerSeq [] s.data)
      fun c hc => lowerSeq_stable [] s.data c hc)

theorem runPipeline_append (xs ys : List PipelineAction) (v : Value) :
    runPipeline (xs ++ ys) v =
      match runPipeline xs v with
      | .success w => runPipeline ys w
      | .failure is => .failure is := by
  induction xs generalizing v with
  | nil => rfl
  | cons a rest ih =>
    cases a with
    | validation p msg =>
      by_cases hp : p v = true
      · simp [runPipeline, hp, ih]
      · simp [runPipeline, hp]
    | transformation f => simp [runPipeline, ih]

theorem runPipeline_failure_ne_nil (pipe : List PipelineAction) (v : Value)
    (is : List Issue) (h : runPipeline pipe v = .failure is) : is ≠ [] := by
  induction pipe generalizing v with
  | nil => simp [runPipeline] at h
  | cons a rest ih =>
    cases a with
    | validation p msg =>
      by_cases hp : p v = true
      · rw [runPipeline, if_pos hp] at h
        exact ih v h
      · rw [runPipeline, if_neg hp] at h
        cases h
        simp
    | transformation f =>
      rw [runPipeline] at h
      exact ih (f v) h

theorem parse_failure_ne_nil :
    ∀ (s : Schema) (v : Value) (is : List Issue),
      parse s v = .failure is → is ≠ []
  | .string msg pipe, v, is, h => by
    cases v <;> simp [parse] at h <;>
      first
      | (exact runPipeline_failure_ne_nil _ _ _ h)
      | (cases h; simp)
  | .number msg pipe, v, is, h => by
    cases v <;> simp [parse] at h <;>
      first
      | (exact runPipeline_failure_ne_nil _ _ _ h)
      | (cases h; simp)
  | .boolean msg pipe, v, is, h => by
    cases v <;> simp [parse] at h <;>
      first
      | (exact runPipeline_failure_ne_nil _ _ _ h)
      | (cases h; simp)
  | .optional inner, v, is, h => by
    cases v <;> simp [parse] at h <;>
      exact parse_failure_ne_nil inner _ _ h
  | .nullable inner, v, is, h => by
    cases v <;> simp [parse] at h <;>
      exact parse_failure_ne_nil inner _ _ h
  | .union alts, v, is, h => by
    rw [parse] at h
    cases hfs : firstSuccess alts v with
    | some o => rw [hfs] at h; cases h
    | none => rw [hfs] at h; cases h; simp
  | .object entries msg pipe, v, is, h => by
    cases v <;> simp [parse] at h
    case obj fields =>
      cases hpe : parseEntries entries fields with
      | mk cis outs =>
        rw [hpe] at h
        cases cis with
        | nil => exact runPipeline_failure_ne_nil _ _ _ h
        | cons i rest => cases h; simp
    all_goals (cases h; simp)

theorem parseEntries_append (xs ys : List (String × Schema))
    (fields : List (String × Value)) :
    parseEntries (xs ++ ys) fields =
      ((parseEntries xs fields).1 ++ (parseEntries ys fields).1,
       (parseEntries xs fields).2 ++ (parseEntries ys fields).2) := by
  induction xs with
  | nil => simp [parseEntries]
  | cons e rest ih =>
    cases e with
    | mk k s =>
      cases hr : parse s (lookupField fields k) with
      | success o => simp [parseEntries, hr, ih]
      | failure cis => simp [parseEntries, hr, ih]

theorem parseEntries_eq_flatMap (xs : List (String × Schema))
    (fields : List (String × Value)) :
    (parseEntries xs fields).1 =
      xs.flatMap fun p =>
        (issuesOf (parse p.2 (lookupField fields p.1))).map (addKey p.1) := by
  induction xs with
  | nil => simp [parseEntries]
  | cons e rest ih =>
    cases e with
    | mk k s =>
      cases hr : parse s (lookupField fields k) with
      | success o => simp [parseEntries, hr, ih, issuesOf]
      | failure cis => simp [parseEntries, hr, ih, issuesOf]

theorem parseEntries_all_success (xs : List (String × Schema))
    (fields : List (String × Value))
    (h : ∀ p ∈ xs, ∃ o, parse p.2 (lookupField fields p.1) = .success o) :
    (parseEntries xs fields).1 = [] := by
  induction xs with
  | nil => simp [parseEntries]
  | cons e rest ih =>
    cases e with
    | mk k s =>
      obtain ⟨o, ho⟩ := h (k, s) (List.mem_cons_self _ _)
      have hrest := ih fun p hp => h p (List.mem_cons_of_mem _ hp)
      simp [parseEntries, ho, hrest]

theorem firstSuccess_append_of_fail (pre : List Schema) (v : Value)
    (h : ∀ a ∈ pre, ∃ is, parse a v = .failure is) (rest : List Schema) :
    firstSuccess (pre ++ rest) v = firstSuccess rest v := by
  induction pre with
  | nil => rfl
  | cons a tl ih =>
    obtain ⟨is, his⟩ := h a (List.mem_cons_self _ _)
    rw [List.cons_append, firstSuccess, his]
    exact ih fun b hb => h b (List.mem_cons_of_mem _ hb)

/-- C7: running the empty pipeline on any structurally-valid value returns
Success with the value unchanged, so the empty pipeline is the identity
element of pipeline execution. -/
theorem empty_pipeline_identity (v : Value) : runPipeline [] v = .success v :=
  rfl

/-- C9: the transformation returned by toLowerCase is idempotent; applying
it twice to any string equals applying it once. -/
theorem toLowerCase_idempotent (s : String) :
    toLowerCase () (toLowerCase () s) = toLowerCase () s :=
  toLocaleLowerCase_idem s

/-- C10: the transformation returned by toLowerCase is total on strings; it
maps the empty string to the empty string and yields a defined string for
every input, a non-empty one whenever the input is non-empty, with no
exceptional path. -/
theorem toLowerCase_total :
    toLowerCase () "" = ""
    ∧ (∀ s : String, ∃ t : String, toLowerCase () s = t)
    ∧ ∀ s : String, s ≠ "" → toLowerCase () s ≠ "" := by
  refine ⟨rfl, fun s => ⟨_, rfl⟩, fun s hs => ?_⟩
  cases s with
  | mk data =>
    cases data with
    | nil => exact absurd rfl hs
    | cons c rest =>
      intro hcontra
      have h2 : lowerAt [] c rest ++ lowerSeq [c] rest = [] :=
        congrArg String.data hcontra
      rw [List.append_eq_nil] at h2
      exact lowerAt_ne_nil [] c rest h2.1

theorem toLowerCase_total_witness :
    ("A" : String) ≠ "" ∧ toLowerCase () "A" ≠ "" :=
  ⟨by decide, toLowerCase_total.2.2 "A" (by decide)⟩

/-- C5: parsing undefined with optional S succeeds immediately with
undefined for every inner schema S, regardless of the structural check or
pipeline of S; every other input is delegated exactly to S. -/
theorem optional_short_circuit :
    (∀ S : Schema, parse (.optional S) .undef = .success .undef)
    ∧ ∀ (S : Schema) (v : Value), v ≠ .undef → parse (.optional S) v = parse S v := by
  refine ⟨fun S => rfl, fun S v hv => ?_⟩
  cases v <;> first | rfl | exact absurd rfl hv

theorem optional_short_circuit_witness :
    Value.str "a" ≠ Value.undef ∧
      parse (.optional (.string none [])) (.str "a") =
        parse (.string none []) (.str "a") :=
  ⟨fun h => Value.noConfusion h,
   optional_short_circuit.2 (.string none []) (.str "a") fun h => Value.noConfusion h⟩

/-- C2: pipeline actions run left to right; as soon as one validation
action rejects the running value, execution stops, no later action runs,
and the result is Failure with exactly one Issue carrying that action
message and an empty path. -/
theorem pipeline_failfast (pre post : List PipelineAction) (p : Value → Bool)
    (msg : String) (v w : Value)
    (hpre : runPipeline pre v = .success w) (hp : p w = false) :
    runPipeline (pre ++ .validation p msg :: post) v =
      .failure [actionIssue msg w]
    ∧ (actionIssue msg w).message = msg ∧ (actionIssue msg w).path = [] := by
  refine ⟨?_, rfl, rfl⟩
  rw [runPipeline_append, hpre]
  simp [runPipeline, hp]

theorem pipeline_failfast_witness :
    runPipeline
        ([PipelineAction.transformation fun _ => .num 2] ++
          .validation (fun v => match v with | .num n => decide (5 < n) | _ => false)
            "too small" :: [.validation (fun _ => true) "later"])
        (.str "x") =
      .failure [actionIssue "too small" (.num 2)] :=
  (pipeline_failfast [PipelineAction.transformation fun _ => .num 2]
    [.validation (fun _ => true) "later"]
    (fun v => match v with | .num n => decide (5 < n) | _ => false)
    "too small" (.str "x") (.num 2) rfl rfl).1

/-- C1: parse is deterministic; two runs with identical schema and input
yield identical results, and in particular a string schema whose pipeline
contains the toLowerCase transformation produces the same output string on
both of two runs over the same input string. -/
theorem parse_deterministic :
    (∀ (S : Schema) (i : Value) (r1 r2 : Result),
        parse S i = r1 → parse S i = r2 → r1 = r2)
    ∧ ∀ (msg : Option String) (pre post : List PipelineAction) (s : String)
        (r1 r2 : Result),
        parse (.string msg (pre ++ toLowerCaseAction :: post)) (.str s) = r1 →
        parse (.string msg (pre ++ toLowerCaseAction :: post)) (.str s) = r2 →
        r1 = r2 :=
  ⟨fun _ _ _ _ h1 h2 => h1.symm.trans h2,
   fun _ _ _ _ _ _ h1 h2 => h1.symm.trans h2⟩

theorem parse_deterministic_witness :
    parse (.string none ([] ++ toLowerCaseAction :: [])) (.str "AbC") =
      .success (.str "abc") :=
  parse_deterministic.2 none [] [] "AbC" _ _ rfl rfl

/-- C4: union tries its alternatives in declared order and the first
alternative that succeeds determines the Success output; if every
alternative fails the result is Failure with the single synthetic union
Issue, not the concatenation of the alternatives own issues; in
particular the union of string and number applied to the string 5
succeeds via the string alternative. -/
theorem union_first_match :
    (∀ (pre : List Schema) (s : Schema) (post : List Schema) (v o : Value),
        (∀ a ∈ pre, ∃ is, parse a v = .failure is) →
        parse s v = .success o →
        parse (.union (pre ++ s :: post)) v = .success o)
    ∧ (∀ (alts : List Schema) (v : Value),
        (∀ a ∈ alts, ∃ is, parse a v = .failure is) →
        parse (.union alts) v = .failure [unionIssue v])
    ∧ parse (.union [.string none [], .number none []]) (.str "5") =
        .success (.str "5") := by
  refine ⟨fun pre s post v o hpre hs => ?_, fun alts v hall => ?_, rfl⟩
  · rw [parse, firstSuccess_append_of_fail pre v hpre, firstSuccess, hs]
  · have hnone : firstSuccess alts v = none := by
      have := firstSuccess_append_of_fail alts v hall []
      simpa using this
    rw [parse, hnone]

theorem union_first_match_witness :
    parse (.union ([Schema.boolean none []] ++ .string none [] :: [.number none []]))
        (.str "yo") =
      .success (.str "yo")
    ∧ parse (.union [.string none [], .boolean none []]) (.num 3) =
      .failure [unionIssue (.num 3)] := by
  constructor
  · refine union_first_match.1 [.boolean none []] (.string none []) [.number none []]
      (.str "yo") (.str "yo") ?_ rfl
    intro a ha
    simp only [List.mem_singleton] at ha
    subst ha
    exact ⟨_, rfl⟩
  · refine union_first_match.2.1 [.string none [], .boolean none []] (.num 3) ?_
    intro a ha
    simp only [List.mem_cons, List.not_mem_nil, or_false] at ha
    rcases ha with h | h <;> subst h <;> exact ⟨_, rfl⟩

/-- C6: a primitive schema applied to an input of the wrong primitive kind
fails with exactly one Issue whose expected field is the primitive kind
name and whose path is empty; a custom construction-time message replaces
only the message of this structural-mismatch Issue and never the message
of a pipeline action. -/
theorem primitive_mismatch_issue :
    (∀ (msg : Option String) (pipe : List PipelineAction) (v : Value),
        typeName v ≠ "string" →
        parse (.string msg pipe) v = .failure [mismatchIssue "string" msg v])
    ∧ (∀ (msg : Option String) (pipe : List PipelineAction) (v : Value),
        typeName v ≠ "number" →
        parse (.number msg pipe) v = .failure [mismatchIssue "number" msg v])
    ∧ (∀ (msg : Option String) (pipe : List PipelineAction) (v : Value),
        typeName v ≠ "boolean" →
        parse (.boolean msg pipe) v = .failure [mismatchIssue "boolean" msg v])
    ∧ (∀ (kind m : String) (v : Value),
        (mismatchIssue kind (some m) v).message = m
        ∧ (mismatchIssue kind none v).message = defaultMessage kind (typeName v)
        ∧ (mismatchIssue kind (some m) v).expected = kind
        ∧ (mismatchIssue kind (some m) v).path = [])
    ∧ ∀ (m amsg : String) (p : Value → Bool) (s : String), p (.str s) = false →
        parse (.string (some m) [.validation p amsg]) (.str s) =
          .failure [actionIssue amsg (.str s)] := by
  refine ⟨fun msg pipe v hv => ?_, fun msg pipe v hv => ?_, fun msg pipe v hv => ?_,
    fun kind m v => ⟨rfl, rfl, rfl, rfl⟩, fun m amsg p s hp => ?_⟩
  · cases v <;> first | rfl | exact absurd rfl hv
  · cases v <;> first | rfl | exact absurd rfl hv
  · cases v <;> first | rfl | exact absurd rfl hv
  · rw [parse]
    simp [runPipeline, hp]

theorem primitive_mismatch_issue_witness :
    parse (.string (some "need text") []) (.num 7) =
      .failure [mismatchIssue "string" (some "need text") (.num 7)]
    ∧ parse (.string (some "need text")
          [.validation (fun _ => false) "action text"]) (.str "ok") =
        .failure [actionIssue "action text" (.str "ok")] :=
  ⟨primitive_mismatch_issue.1 (some "need text") [] (.num 7) (by decide),
   primitive_mismatch_issue.2.2.2.2 "need text" "action text" (fun _ => false) "ok" rfl⟩

/-- C3: an object schema parses every declared key and does not stop at the
first failing key; with exactly two failing keys, each failing with one
issue, the result is Failure with exactly two Issues, one per failing key,
each path prefixed with its key segment, in declared-key order. -/
theorem object_aggregates_two_failures
    (pre mid post : List (String × Schema)) (k1 k2 : String) (s1 s2 : Schema)
    (msg : Option String) (pipe : List PipelineAction)
    (fields : List (String × Value)) (i1 i2 : Issue)
    (hok : ∀ p ∈ pre ++ mid ++ post, ∃ o, parse p.2 (lookupField fields p.1) = .success o)
    (h1 : parse s1 (lookupField fields k1) = .failure [i1])
    (h2 : parse s2 (lookupField fields k2) = .failure [i2]) :
    parse (.object (pre ++ (k1, s1) :: (mid ++ (k2, s2) :: post)) msg pipe)
        (.obj fields) =
      .failure [addKey k1 i1, addKey k2 i2] := by
  have hpre : (parseEntries pre fields).1 = [] :=
    parseEntries_all_success _ _ fun p hp => hok p (by simp [hp])
  have hmid : (parseEntries mid fields).1 = [] :=
    parseEntries_all_success _ _ fun p hp => hok p (by simp [hp])
  have hpost : (parseEntries post fields).1 = [] :=
    parseEntries_all_success _ _ fun p hp => hok p (by simp [hp])
  have hE : (parseEntries (pre ++ (k1, s1) :: (mid ++ (k2, s2) :: post)) fields).1 =
      [addKey k1 i1, addKey k2 i2] := by
    rw [parseEntries_append, hpre]
    simp only [List.nil_append]
    rw [parseEntries, h1]
    simp only []
    rw [parseEntries_append, hmid]
    simp only [List.nil_append]
    rw [parseEntries, h2]
    simp [hpost]
  simp only [parse]
  cases hpe : parseEntries (pre ++ (k1, s1) :: (mid ++ (k2, s2) :: post)) fields with
  | mk cis outs =>
    rw [hpe] at hE
    simp only at hE
    subst hE
    rfl

theorem object_aggregates_two_failures_witness :
    parse
        (.object ([("a", .number none [])] ++ ("b", .string none []) :: ([] ++
            ("c", .boolean none []) :: [])) none [])
        (.obj [("a", .num 1), ("b", .num 2), ("c", .num 3)]) =
      .failure [addKey "b" (mismatchIssue "string" none (.num 2)),
                addKey "c" (mismatchIssue "boolean" none (.num 3))] := by
  refine object_aggregates_two_failures [("a", .number none [])] [] []
    "b" "c" (.string none []) (.boolean none []) none []
    [("a", .num 1), ("b", .num 2), ("c", .num 3)]
    (mismatchIssue "string" none (.num 2)) (mismatchIssue "boolean" none (.num 3))
    ?_ rfl rfl
  intro p hp
  simp only [List.append_nil, List.mem_singleton] at hp
  subst hp
  exact ⟨_, rfl⟩

/-- C8: every Result is exactly one of Success or Failure, never both; in
every Failure produced by parse the issue list is non-empty; the issues an
object schema aggregates are exactly the key-prefixed issues of its
declared entries concatenated in declared traversal order. -/
theorem result_invariants :
    (∀ r : Result, (∃ o, r = .success o) ↔ ¬∃ is, r = .failure is)
    ∧ (∀ (s : Schema) (v : Value) (is : List Issue),
        parse s v = .failure is → is ≠ [])
    ∧ ∀ (entries : List (String × Schema)) (fields : List (String × Value)),
        (parseEntries entries fields).1 =
          entries.flatMap fun p =>
            (issuesOf (parse p.2 (lookupField fields p.1))).map (addKey p.1) := by
  refine ⟨fun r => ?_, parse_failure_ne_nil, parseEntries_eq_flatMap⟩
  cases r <;> simp

theorem result_invariants_witness :
    [mismatchIssue "string" none (.num 9)] ≠ [] :=
  result_invariants.2.1 (.string none []) (.num 9)
    [mismatchIssue "string" none (.num 9)] rfl

end Valibot
